import Mathlib

/-!
Verification development for the `mcp-baseline-cf` repository: a Cloudflare
Worker exposing a loan-servicing REST API ("Baseline") as MCP tools.

The repository's tool layer (`tools.ts`, given as `src/unnamed/part_000`) is a
collection of pure-ish async handlers: each validates an argument bag,
optionally sanitizes strings/objects, issues exactly one HTTP call through a
small fetch-based client, and normalizes every outcome into a
`{content:[{type:"text", text}], isError}` result.

Shallow embedding conventions:
- JavaScript runtime values are modelled by the inductive `JSValue` (with
  mutually inductive `JSFields`/`JSList` for object fields and array elements,
  so that all recursion is structural and everything evaluates by `decide`).
  JavaScript numbers are modelled as integers; the claims under study only
  exercise integral values.
- Thrown exceptions are modelled by `Except String`; every throw site in the
  handler bodies throws an `Error` whose `.message` is the carried string.
- The ambient runtime primitives (the `fetch` network boundary and the
  `JSON.parse` text-to-value primitive) are supplied through a `ClientEnv`
  record, so theorems can quantify over arbitrary network/parser behaviour and
  concrete fixtures can observe which URL/headers a handler produced.
- `JSON.stringify(x, null, 2)` is modelled by the structural serializer
  `jsonStringify` (indentation, a pure display concern, is omitted; `undefined`
  object properties are dropped exactly as `JSON.stringify` drops them).
-/

set_option autoImplicit false
set_option linter.unreachableTactic false
set_option linter.unusedTactic false

namespace Baseline

/-! ## JavaScript value model -/

mutual
inductive JSValue where
  | str : String → JSValue
  | num : Int → JSValue
  | bool : Bool → JSValue
  | null : JSValue
  | undefined : JSValue
  | obj : JSFields → JSValue
  | arr : JSList → JSValue

inductive JSFields where
  | nil : JSFields
  | cons : String → JSValue → JSFields → JSFields

inductive JSList where
  | nil : JSList
  | cons : JSValue → JSList → JSList
end

/-- Result of the JavaScript `typeof` operator (note `typeof null` is
`"object"`, as in JavaScript, and arrays are `"object"` too). -/
def jsTypeof : JSValue → String
  | JSValue.str _ => "string"
  | JSValue.num _ => "number"
  | JSValue.bool _ => "boolean"
  | JSValue.null => "object"
  | JSValue.undefined => "undefined"
  | JSValue.obj _ => "object"
  | JSValue.arr _ => "object"

/-- JavaScript truthiness (`NaN` is not modelled; numbers are integral). -/
def truthy : JSValue → Bool
  | JSValue.str s => s != ""
  | JSValue.num n => n != 0
  | JSValue.bool b => b
  | JSValue.null => false
  | JSValue.undefined => false
  | JSValue.obj _ => true
  | JSValue.arr _ => true

def isUndefOrNull : JSValue → Bool
  | JSValue.undefined => true
  | JSValue.null => true
  | _ => false

def isNullV : JSValue → Bool
  | JSValue.null => true
  | _ => false

def fieldLookup : JSFields → String → JSValue
  | JSFields.nil, _ => JSValue.undefined
  | JSFields.cons key val rest, k => if key == k then val else fieldLookup rest k

/-- Property access `v[k]` on values where it does not throw (objects yield the
stored field or `undefined`; other non-null primitives have no such own
property, yielding `undefined`). -/
def getField (v : JSValue) (k : String) : JSValue :=
  match v with
  | JSValue.obj fs => fieldLookup fs k
  | _ => JSValue.undefined

/-- Property access that models the TypeError thrown by JavaScript when the
receiver is `null` or `undefined` (message text approximates the runtime). -/
def getFieldE (v : JSValue) (k : String) : Except String JSValue :=
  match v with
  | JSValue.null => Except.error ("Cannot read properties of null (reading " ++ k ++ ")")
  | JSValue.undefined => Except.error ("Cannot read properties of undefined (reading " ++ k ++ ")")
  | _ => Except.ok (getField v k)

def jsListLength : JSList → Nat
  | JSList.nil => 0
  | JSList.cons _ rest => jsListLength rest + 1

/-- The `.length` read performed by `listLoans` (`loans.length`): array length,
string length, an object's own `length` property, `undefined` otherwise. -/
def jsLength : JSValue → JSValue
  | JSValue.arr xs => JSValue.num (Int.ofNat (jsListLength xs))
  | JSValue.str s => JSValue.num (Int.ofNat s.length)
  | JSValue.obj fs => fieldLookup fs "length"
  | _ => JSValue.undefined

mutual
/-- String conversion as performed by template literals / `.toString()`. -/
def jsToString : JSValue → String
  | JSValue.str s => s
  | JSValue.num n => toString n
  | JSValue.bool b => if b then "true" else "false"
  | JSValue.null => "null"
  | JSValue.undefined => "undefined"
  | JSValue.obj _ => "[object Object]"
  | JSValue.arr xs => jsListToString xs

def jsListToString : JSList → String
  | JSList.nil => ""
  | JSList.cons v JSList.nil => jsElemToString v
  | JSList.cons v rest => jsElemToString v ++ "," ++ jsListToString rest

/-- Array elements stringify like `jsToString` except that `null` and
`undefined` render as the empty string (`Array.prototype.join` semantics). -/
def jsElemToString : JSValue → String
  | JSValue.null => ""
  | JSValue.undefined => ""
  | JSValue.str s => s
  | JSValue.num n => toString n
  | JSValue.bool b => if b then "true" else "false"
  | JSValue.obj _ => "[object Object]"
  | JSValue.arr xs => jsListToString xs
end

def jsonEscapeChar (c : Char) : String :=
  if c = Char.ofNat 34 then "\\" ++ String.singleton (Char.ofNat 34)
  else if c = Char.ofNat 92 then "\\\\"
  else if c = Char.ofNat 10 then "\\n"
  else if c = Char.ofNat 13 then "\\r"
  else if c = Char.ofNat 9 then "\\t"
  else String.singleton c

def jsonQuote (s : String) : String :=
  String.singleton (Char.ofNat 34) ++ String.join (s.data.map jsonEscapeChar)
    ++ String.singleton (Char.ofNat 34)

mutual
/-- Model of `JSON.stringify` (the `(x, null, 2)` indentation argument used by
the handlers is pure display formatting and is omitted). `undefined`-valued
object properties are dropped, as `JSON.stringify` drops them. -/
def jsonStringify : JSValue → String
  | JSValue.str s => jsonQuote s
  | JSValue.num n => toString n
  | JSValue.bool b => if b then "true" else "false"
  | JSValue.null => "null"
  | JSValue.undefined => "null"
  | JSValue.obj fs => "\x7b" ++ String.intercalate "," (jsonFieldStrings fs) ++ "\x7d"
  | JSValue.arr xs => "[" ++ String.intercalate "," (jsonItemStrings xs) ++ "]"

def jsonFieldStrings : JSFields → List String
  | JSFields.nil => []
  | JSFields.cons k v rest =>
    match v with
    | JSValue.undefined => jsonFieldStrings rest
    | _ => (jsonQuote k ++ ":" ++ jsonStringify v) :: jsonFieldStrings rest

def jsonItemStrings : JSList → List String
  | JSList.nil => []
  | JSList.cons v rest => jsonStringify v :: jsonItemStrings rest
end

/-! ## Input validation and sanitization helpers (source lines 114-154) -/

/-- Embedding of `validateRequiredArgs(args, requiredFields)`: throws
`Missing required argument: f` for the first field `f` (left to right) where
`!args` or `args[f]` is `undefined` or `null`. -/
def validateRequiredArgs (args : JSValue) : List String → Except String Unit
  | [] => Except.ok ()
  | f :: rest =>
    if !truthy args || isUndefOrNull (getField args f) then
      Except.error ("Missing required argument: " ++ f)
    else validateRequiredArgs args rest

/-- JavaScript WhiteSpace / LineTerminator characters recognized by
`String.prototype.trim` (ASCII whitespace plus NBSP, BOM and the Unicode
space separators; the common ones are listed). -/
def jsWhitespace (c : Char) : Bool :=
  c == ' ' || c == Char.ofNat 9 || c == Char.ofNat 10 || c == Char.ofNat 11
    || c == Char.ofNat 12 || c == Char.ofNat 13 || c == Char.ofNat 160
    || c == Char.ofNat 8232 || c == Char.ofNat 8233 || c == Char.ofNat 65279

def dropLeadingWs : List Char → List Char
  | [] => []
  | c :: cs => if jsWhitespace c then dropLeadingWs cs else c :: cs

/-- Model of `String.prototype.trim`: drop leading and trailing whitespace. -/
def jsTrim (s : String) : String :=
  List.asString (List.reverse (dropLeadingWs (List.reverse (dropLeadingWs s.data))))

/-- The characters stripped by `sanitizeString`: `<`, `>`, double quote,
single quote and ampersand (the regex `[<>\"'&]`). -/
def dangerousChar (c : Char) : Bool :=
  c == '<' || c == '>' || c == Char.ofNat 34 || c == Char.ofNat 39 || c == '&'

/-- The string pipeline of `sanitizeString` on an actual string:
`input.trim().replace(/[<>\"'&]/g, '').substring(0, 1000)`. -/
def sanitizeStr (s : String) : String :=
  List.asString (((jsTrim s).data.filter (fun c => !dangerousChar c)).take 1000)

/-- Embedding of `sanitizeString(input)`: throws `Input must be a string` on
non-strings, otherwise trims, strips dangerous characters and truncates. -/
def sanitizeString (input : JSValue) : Except String String :=
  match input with
  | JSValue.str s => Except.ok (sanitizeStr s)
  | _ => Except.error "Input must be a string"

mutual
/-- The inner recursive `sanitizeValue` closure of `sanitizeObject`: sanitizes
string leaves, maps arrays element-wise, rebuilds objects key by key, and
returns every other value (numbers, booleans, `null`, `undefined`) unchanged.
(The string branch calls `sanitizeString`, which never throws on strings, so
the recursion is pure.) -/
def sanitizeValue : JSValue → JSValue
  | JSValue.str s => JSValue.str (sanitizeStr s)
  | JSValue.obj fs => JSValue.obj (sanitizeFields fs)
  | JSValue.arr xs => JSValue.arr (sanitizeList xs)
  | v => v

def sanitizeFields : JSFields → JSFields
  | JSFields.nil => JSFields.nil
  | JSFields.cons k v rest => JSFields.cons k (sanitizeValue v) (sanitizeFields rest)

def sanitizeList : JSList → JSList
  | JSList.nil => JSList.nil
  | JSList.cons v rest => JSList.cons (sanitizeValue v) (sanitizeList rest)
end

/-- Embedding of `sanitizeObject(input)`: throws `Input must be an object`
unless `typeof input === 'object' && input !== null` (arrays qualify), then
recursively sanitizes. -/
def sanitizeObject (input : JSValue) : Except String JSValue :=
  if jsTypeof input != "object" || isNullV input then
    Except.error "Input must be an object"
  else Except.ok (sanitizeValue input)

/-! ## The upstream REST client (source lines 6-80) -/

/-- Model of the settled `fetch` response as consumed by `makeRequest`: the
`ok`/`status`/`statusText` fields and the text obtained by `response.text()`. -/
structure HttpResponse where
  ok : Bool
  status : Nat
  statusText : String
  body : String

/-- The ambient runtime for one client call: the two mutable module globals
`BASELINE_API_KEY` / `BASELINE_API_URL`, plus the two runtime primitives the
client invokes — `JSON.parse` (throwing on non-JSON text) and `fetch`
(method, full URL, headers, optional serialized body). -/
structure ClientEnv where
  BASELINE_API_KEY : String
  BASELINE_API_URL : String
  jsonParse : String → Except String JSValue
  fetch : String → String → List (String × String) → Option String → HttpResponse

def fieldValues : JSFields → List JSValue
  | JSFields.nil => []
  | JSFields.cons _ v rest => v :: fieldValues rest

def listValues : JSList → List JSValue
  | JSList.nil => []
  | JSList.cons v rest => v :: listValues rest

/-- Model of `Object.values` on the values it is applied to (a truthy value of
typeof `object`, i.e. a plain object or an array). -/
def objectValues : JSValue → List JSValue
  | JSValue.obj fs => fieldValues fs
  | JSValue.arr xs => listValues xs
  | _ => []

def isStringValue : JSValue → Bool
  | JSValue.str _ => true
  | _ => false

/-- The fixed-priority key lookup applied when the configured credential parses
as a JSON object (AWS Secrets Manager format): `BASELINE_API_KEY`, then
`apiKey`, `key`, `value`, `secret` (each accepted when truthy), else the first
string-valued field, else the raw configured string. Extracted values are
coerced to text exactly as the backtick template `Token ${apiKey}` coerces
them. -/
def resolveApiKeyFromParsed (parsed : JSValue) (raw : String) : String :=
  if truthy (getField parsed "BASELINE_API_KEY") then jsToString (getField parsed "BASELINE_API_KEY")
  else if truthy (getField parsed "apiKey") then jsToString (getField parsed "apiKey")
  else if truthy (getField parsed "key") then jsToString (getField parsed "key")
  else if truthy (getField parsed "value") then jsToString (getField parsed "value")
  else if truthy (getField parsed "secret") then jsToString (getField parsed "secret")
  else
    match (objectValues parsed).filter isStringValue with
    | v :: _ => jsToString v
    | [] => raw

/-- Credential resolution of `makeRequest` (source lines 24-42): try to parse
the configured credential as JSON; on a truthy object result extract via
`resolveApiKeyFromParsed`, otherwise (parse failure, primitives, `null`) use
the raw string. -/
def resolveApiKey (jsonParse : String → Except String JSValue) (raw : String) : String :=
  match jsonParse raw with
  | Except.ok parsed =>
    if truthy parsed && (jsTypeof parsed == "object") then resolveApiKeyFromParsed parsed raw
    else raw
  | Except.error _ => raw

/-- The three headers attached to every upstream request. -/
def requestHeaders (env : ClientEnv) : List (String × String) :=
  [("Authorization", "Token " ++ resolveApiKey env.jsonParse env.BASELINE_API_KEY),
   ("Content-Type", "application/json"),
   ("Accept", "application/json")]

/-- The serialized request body: `config.body = JSON.stringify(body)` is set
only when `body` is provided and truthy (`if (body)`). -/
def requestBody : Option JSValue → Option String
  | some v => if truthy v then some (jsonStringify v) else none
  | none => none

/-- Embedding of `makeRequest(method, path, body?)`: fails when no credential
is configured; otherwise resolves the credential, issues one `fetch`, fails
with `API request failed: <status> <statusText> - Body: <text>` on a non-ok
response, treats an empty body as `{}` and otherwise parses it as JSON. -/
def makeRequest (env : ClientEnv) (method path : String) (body : Option JSValue) :
    Except String JSValue :=
  if env.BASELINE_API_KEY == "" then
    Except.error "BASELINE_API_KEY is not configured. Please set it via environment variables or the setBaselineApiKey function."
  else
    match env.fetch method (env.BASELINE_API_URL ++ path) (requestHeaders env) (requestBody body) with
    | resp =>
      if resp.ok == false then
        Except.error ("API request failed: " ++ toString resp.status ++ " " ++ resp.statusText
          ++ " - Body: " ++ resp.body)
      else if resp.body == "" then Except.ok (JSValue.obj JSFields.nil)
      else env.jsonParse resp.body

def clientGet (env : ClientEnv) (path : String) : Except String JSValue :=
  makeRequest env "GET" path none

def clientPost (env : ClientEnv) (path : String) (data : JSValue) : Except String JSValue :=
  makeRequest env "POST" path (some data)

def clientPatch (env : ClientEnv) (path : String) (data : JSValue) : Except String JSValue :=
  makeRequest env "PATCH" path (some data)

def clientPut (env : ClientEnv) (path : String) (data : JSValue) : Except String JSValue :=
  makeRequest env "PUT" path (some data)

def clientDelete (env : ClientEnv) (path : String) : Except String JSValue :=
  makeRequest env "DELETE" path none

/-- Embedding of the module-level credential setter (source lines 9-11):
`if (key) BASELINE_API_KEY = key`. The state is passed explicitly: the result
is the new value of the `BASELINE_API_KEY` global. -/
def setBaselineApiKey (key : Option String) (current : String) : String :=
  match key with
  | some k => if k != "" then k else current
  | none => current

/-! ## URLSearchParams model (application/x-www-form-urlencoded) -/

def hexDigitChar (n : Nat) : Char :=
  if n < 10 then Char.ofNat (48 + n) else Char.ofNat (55 + n)

def utf8ByteList (c : Char) : List Nat :=
  let n := c.toNat
  if n < 128 then [n]
  else if n < 2048 then [192 + n / 64, 128 + n % 64]
  else if n < 65536 then [224 + n / 4096, 128 + (n / 64) % 64, 128 + n % 64]
  else [240 + n / 262144, 128 + (n / 4096) % 64, 128 + (n / 64) % 64, 128 + n % 64]

def percentEncodeByte (b : Nat) : String :=
  "%" ++ String.singleton (hexDigitChar (b / 16)) ++ String.singleton (hexDigitChar (b % 16))

def encodeFormChar (c : Char) : String :=
  if c.isAlphanum || c == '*' || c == '-' || c == '.' || c == '_' then String.singleton c
  else if c == ' ' then "+"
  else String.join ((utf8ByteList c).map percentEncodeByte)

def encodeFormComponent (s : String) : String :=
  String.join (s.data.map encodeFormChar)

/-- Model of `new URLSearchParams()` with zero or more `append`s followed by
`.toString()`. -/
def urlSearchParams (ps : List (String × String)) : String :=
  String.intercalate "&" (ps.map (fun p => encodeFormComponent p.1 ++ "=" ++ encodeFormComponent p.2))

/-! ## The ToolResult envelope and the shared handler skeleton -/

structure ContentItem where
  type : String
  text : String
deriving DecidableEq

/-- The uniform result shape produced by every tool handler. -/
structure ToolResult where
  content : List ContentItem
  isError : Bool
deriving DecidableEq

def errResult (msg : String) : ToolResult :=
  { content := [ContentItem.mk "text" msg], isError := true }

def okResult (text : String) : ToolResult :=
  { content := [ContentItem.mk "text" text], isError := false }

def firstText (r : ToolResult) : String :=
  match r.content with
  | ci :: _ => ci.text
  | [] => ""

/-- The outer try/catch of every handler: a thrown error `e` is converted to
the single-text error result `Error <doing X>: <message>` (every throw site in
the embedded code throws an `Error`, so `error.message` is always taken). -/
def runTool (label : String) (body : Except String ToolResult) : ToolResult :=
  match body with
  | Except.ok r => r
  | Except.error e => errResult ("Error " ++ label ++ ": " ++ e)

/-- The identifier check `typeof x !== 'string' || !x.trim()` shared by every
identifier-taking handler. -/
def failsNonEmptyString : JSValue → Bool
  | JSValue.str s => jsTrim s == ""
  | _ => true

/-- The object check `typeof x !== 'object' || x === null` used by
`updateLoan` and `createLoan`. -/
def failsTypeofObjectCheck (v : JSValue) : Bool :=
  jsTypeof v != "object" || isNullV v

/-- The object check `!x || typeof x !== 'object'` used by the other
object-taking handlers. Agrees with `failsTypeofObjectCheck` on every value
(objects and arrays are always truthy, `null` is falsy). -/
def failsTruthyObjectCheck (v : JSValue) : Bool :=
  !truthy v || jsTypeof v != "object"

/-- The `page` check of `listTasks`: `typeof page !== 'number' || page < 0`. -/
def pageInvalid : JSValue → Bool
  | JSValue.num n => decide (n < 0)
  | _ => true

/-- The destructuring `const { page } = args || {}` shared by the list
handlers. -/
def pageOf (args : JSValue) : JSValue :=
  getField (if truthy args then args else JSValue.obj JSFields.nil) "page"

/-- The shared success tail of every handler: propagate a client failure,
otherwise wrap `JSON.stringify(response.data)` in a non-error single-text
result. -/
def finishCall : Except String JSValue → Except String ToolResult
  | Except.error e => Except.error e
  | Except.ok data => Except.ok (okResult (jsonStringify data))

/-- The URL assembly of the four paginated list handlers: start from the base
path and append `?<params>` when `params.toString()` is nonempty, then GET. -/
def finishList (env : ClientEnv) (base : String) (params : List (String × String)) :
    Except String ToolResult :=
  finishCall (clientGet env
    (if urlSearchParams params != "" then base ++ "?" ++ urlSearchParams params else base))

/-- The post-processing of `listLoans` (source lines 292-297):
`const loans = response.data.loans || response.data` followed by
`{ loans, totalCount: loans.length }`. -/
def listLoansResult (data : JSValue) : JSValue :=
  JSValue.obj (JSFields.cons "loans"
    (if truthy (getField data "loans") then getField data "loans" else data)
    (JSFields.cons "totalCount"
      (jsLength (if truthy (getField data "loans") then getField data "loans" else data))
      JSFields.nil))

/-! ## Tool handlers (source lines 245-1281)

Each handler takes the ambient `ClientEnv` and the raw argument bag and
produces a `ToolResult`; this totality is the embedding of "the handler never
throws to its caller" (the entire body sits inside try/catch). Destructured
locals of the source are inlined as repeated pure `getField` reads. -/

namespace toolHandlers

def getLoan (env : ClientEnv) (args : JSValue) : ToolResult :=
  runTool "retrieving loan"
    (match validateRequiredArgs args ["loanId"] with
     | Except.error e => Except.error e
     | Except.ok _ =>
       if failsNonEmptyString (getField args "loanId") then
         Except.ok (errResult "Error: loanId must be a non-empty string")
       else
         match sanitizeString (getField args "loanId") with
         | Except.error e => Except.error e
         | Except.ok sid => finishCall (clientGet env ("/loan/" ++ sid)))

def listLoans (env : ClientEnv) (_args : JSValue) : ToolResult :=
  runTool "listing loans"
    (match clientGet env "/loan" with
     | Except.error e => Except.error e
     | Except.ok data =>
       match getFieldE data "loans" with
       | Except.error e => Except.error e
       | Except.ok _ => Except.ok (okResult (jsonStringify (listLoansResult data))))

def updateLoan (env : ClientEnv) (args : JSValue) : ToolResult :=
  runTool "updating loan"
    (match validateRequiredArgs args ["loanId", "updates"] with
     | Except.error e => Except.error e
     | Except.ok _ =>
       if failsNonEmptyString (getField args "loanId") then
         Except.ok (errResult "Error: loanId must be a non-empty string")
       else if failsTypeofObjectCheck (getField args "updates") then
         Except.ok (errResult "Error: updates must be an object")
       else
         match sanitizeString (getField args "loanId") with
         | Except.error e => Except.error e
         | Except.ok sid =>
           match sanitizeObject (getField args "updates") with
           | Except.error e => Except.error e
           | Except.ok su => finishCall (clientPatch env ("/loan/" ++ sid) su))

def createLoan (env : ClientEnv) (args : JSValue) : ToolResult :=
  runTool "creating loan"
    (match validateRequiredArgs args ["loanData"] with
     | Except.error e => Except.error e
     | Except.ok _ =>
       if failsTypeofObjectCheck (getField args "loanData") then
         Except.ok (errResult "Error: loanData must be an object")
       else
         match sanitizeObject (getField args "loanData") with
         | Except.error e => Except.error e
         | Except.ok sd => finishCall (clientPost env "/loan" sd))

def getLoanLedger (env : ClientEnv) (args : JSValue) : ToolResult :=
  runTool "retrieving loan ledger"
    (match validateRequiredArgs args ["loanId"] with
     | Except.error e => Except.error e
     | Except.ok _ =>
       if failsNonEmptyString (getField args "loanId") then
         Except.ok (errResult "Error: loanId must be a non-empty string")
       else
         match sanitizeString (getField args "loanId") with
         | Except.error e => Except.error e
         | Except.ok sid => finishCall (clientGet env ("/loan/" ++ sid ++ "/transaction")))

def getTask (env : ClientEnv) (args : JSValue) : ToolResult :=
  runTool "retrieving task"
    (match validateRequiredArgs args ["taskId"] with
     | Except.error e => Except.error e
     | Except.ok _ =>
       if failsNonEmptyString (getField args "taskId") then
         Except.ok (errResult "Error: taskId must be a non-empty string")
       else
         match sanitizeString (getField args "taskId") with
         | Except.error e => Except.error e
         | Except.ok sid => finishCall (clientGet env ("/task/" ++ sid)))

def listTasks (env : ClientEnv) (args : JSValue) : ToolResult :=
  runTool "listing tasks"
    (if truthy (pageOf args) then
       if pageInvalid (pageOf args) then
         Except.ok (errResult "Error: page must be a non-negative number")
       else finishList env "/task" [("page", jsToString (pageOf args))]
     else finishList env "/task" [])

def createTask (env : ClientEnv) (args : JSValue) : ToolResult :=
  runTool "creating task"
    (match validateRequiredArgs args ["Name"] with
     | Except.error e => Except.error e
     | Except.ok _ =>
       match sanitizeObject args with
       | Except.error e => Except.error e
       | Except.ok sd => finishCall (clientPost env "/task" sd))

def updateTask (env : ClientEnv) (args : JSValue) : ToolResult :=
  runTool "updating task"
    (match validateRequiredArgs args ["taskId", "updates"] with
     | Except.error e => Except.error e
     | Except.ok _ =>
       if failsNonEmptyString (getField args "taskId") then
         Except.ok (errResult "Error: taskId must be a non-empty string")
       else if failsTruthyObjectCheck (getField args "updates") then
         Except.ok (errResult "Error: updates must be an object")
       else
         match sanitizeString (getField args "taskId") with
         | Except.error e => Except.error e
         | Except.ok sid =>
           match sanitizeObject (getField args "updates") with
           | Except.error e => Except.error e
           | Except.ok su => finishCall (clientPatch env ("/task/" ++ sid) su))

def deleteTask (env : ClientEnv) (args : JSValue) : ToolResult :=
  runTool "deleting task"
    (match validateRequiredArgs args ["taskId"] with
     | Except.error e => Except.error e
     | Except.ok _ =>
       if failsNonEmptyString (getField args "taskId") then
         Except.ok (errResult "Error: taskId must be a non-empty string")
       else
         match sanitizeString (getField args "taskId") with
         | Except.error e => Except.error e
         | Except.ok sid => finishCall (clientDelete env ("/task/" ++ sid)))

def createBorrower (env : ClientEnv) (args : JSValue) : ToolResult :=
  runTool "creating borrower"
    (match validateRequiredArgs args ["borrowerData"] with
     | Except.error e => Except.error e
     | Except.ok _ =>
       if failsTruthyObjectCheck (getField args "borrowerData") then
         Except.ok (errResult "Error: borrowerData must be an object")
       else
         match sanitizeObject (getField args "borrowerData") with
         | Except.error e => Except.error e
         | Except.ok sd => finishCall (clientPost env "/borrower" sd))

def listBorrowers (env : ClientEnv) (args : JSValue) : ToolResult :=
  runTool "listing borrowers"
    (finishList env "/borrower"
      (if truthy (pageOf args) then [("page", jsToString (pageOf args))] else []))

def getBorrower (env : ClientEnv) (args : JSValue) : ToolResult :=
  runTool "retrieving borrower"
    (match validateRequiredArgs args ["borrowerId"] with
     | Except.error e => Except.error e
     | Except.ok _ =>
       if failsNonEmptyString (getField args "borrowerId") then
         Except.ok (errResult "Error: borrowerId must be a non-empty string")
       else
         match sanitizeString (getField args "borrowerId") with
         | Except.error e => Except.error e
         | Except.ok sid => finishCall (clientGet env ("/borrower/" ++ sid)))

def updateBorrower (env : ClientEnv) (args : JSValue) : ToolResult :=
  runTool "updating borrower"
    (match validateRequiredArgs args ["borrowerId", "updates"] with
     | Except.error e => Except.error e
     | Except.ok _ =>
       if failsNonEmptyString (getField args "borrowerId") then
         Except.ok (errResult "Error: borrowerId must be a non-empty string")
       else if failsTruthyObjectCheck (getField args "updates") then
         Except.ok (errResult "Error: updates must be an object")
       else
         match sanitizeString (getField args "borrowerId") with
         | Except.error e => Except.error e
         | Except.ok sid =>
           match sanitizeObject (getField args "updates") with
           | Except.error e => Except.error e
           | Except.ok su => finishCall (clientPatch env ("/borrower/" ++ sid) su))

def deleteBorrower (env : ClientEnv) (args : JSValue) : ToolResult :=
  runTool "deleting borrower"
    (match validateRequiredArgs args ["borrowerId"] with
     | Except.error e => Except.error e
     | Except.ok _ =>
       if failsNonEmptyString (getField args "borrowerId") then
         Except.ok (errResult "Error: borrowerId must be a non-empty string")
       else
         match sanitizeString (getField args "borrowerId") with
         | Except.error e => Except.error e
         | Except.ok sid => finishCall (clientDelete env ("/borrower/" ++ sid)))

def connectBorrowers (env : ClientEnv) (args : JSValue) : ToolResult :=
  runTool "connecting borrowers"
    (match validateRequiredArgs args ["borrowerId", "connectToBorrowerId"] with
     | Except.error e => Except.error e
     | Except.ok _ =>
       if failsNonEmptyString (getField args "borrowerId")
           || failsNonEmptyString (getField args "connectToBorrowerId") then
         Except.ok (errResult "Error: borrowerId and connectToBorrowerId must be non-empty strings")
       else
         match sanitizeString (getField args "borrowerId") with
         | Except.error e => Except.error e
         | Except.ok sa =>
           match sanitizeString (getField args "connectToBorrowerId") with
           | Except.error e => Except.error e
           | Except.ok sb =>
             finishCall (clientPut env ("/borrower/" ++ sa ++ "/connect/" ++ sb)
               (JSValue.obj JSFields.nil)))

def disconnectBorrowers (env : ClientEnv) (args : JSValue) : ToolResult :=
  runTool "disconnecting borrowers"
    (match validateRequiredArgs args ["borrowerId", "disconnectFromBorrowerId"] with
     | Except.error e => Except.error e
     | Except.ok _ =>
       if failsNonEmptyString (getField args "borrowerId")
           || failsNonEmptyString (getField args "disconnectFromBorrowerId") then
         Except.ok (errResult "Error: borrowerId and disconnectFromBorrowerId must be non-empty strings")
       else
         match sanitizeString (getField args "borrowerId") with
         | Except.error e => Except.error e
         | Except.ok sa =>
           match sanitizeString (getField args "disconnectFromBorrowerId") with
           | Except.error e => Except.error e
           | Except.ok sb =>
             finishCall (clientDelete env ("/borrower/" ++ sa ++ "/connect/" ++ sb)))

def createVendor (env : ClientEnv) (args : JSValue) : ToolResult :=
  runTool "creating vendor"
    (match validateRequiredArgs args ["vendorData"] with
     | Except.error e => Except.error e
     | Except.ok _ =>
       if failsTruthyObjectCheck (getField args "vendorData") then
         Except.ok (errResult "Error: vendorData must be an object")
       else
         match sanitizeObject (getField args "vendorData") with
         | Except.error e => Except.error e
         | Except.ok sd => finishCall (clientPost env "/vendor" sd))

def listVendors (env : ClientEnv) (args : JSValue) : ToolResult :=
  runTool "listing vendors"
    (finishList env "/vendor"
      (if truthy (pageOf args) then [("page", jsToString (pageOf args))] else []))

def getVendor (env : ClientEnv) (args : JSValue) : ToolResult :=
  runTool "retrieving vendor"
    (match validateRequiredArgs args ["vendorId"] with
     | Except.error e => Except.error e
     | Except.ok _ =>
       if failsNonEmptyString (getField args "vendorId") then
         Except.ok (errResult "Error: vendorId must be a non-empty string")
       else
         match sanitizeString (getField args "vendorId") with
         | Except.error e => Except.error e
         | Except.ok sid => finishCall (clientGet env ("/vendor/" ++ sid)))

def updateVendor (env : ClientEnv) (args : JSValue) : ToolResult :=
  runTool "updating vendor"
    (match validateRequiredArgs args ["vendorId", "updates"] with
     | Except.error e => Except.error e
     | Except.ok _ =>
       if failsNonEmptyString (getField args "vendorId") then
         Except.ok (errResult "Error: vendorId must be a non-empty string")
       else if failsTruthyObjectCheck (getField args "updates") then
         Except.ok (errResult "Error: updates must be an object")
       else
         match sanitizeString (getField args "vendorId") with
         | Except.error e => Except.error e
         | Except.ok sid =>
           match sanitizeObject (getField args "updates") with
           | Except.error e => Except.error e
           | Except.ok su => finishCall (clientPatch env ("/vendor/" ++ sid) su))

def deleteVendor (env : ClientEnv) (args : JSValue) : ToolResult :=
  runTool "deleting vendor"
    (match validateRequiredArgs args ["vendorId"] with
     | Except.error e => Except.error e
     | Except.ok _ =>
       if failsNonEmptyString (getField args "vendorId") then
         Except.ok (errResult "Error: vendorId must be a non-empty string")
       else
         match sanitizeString (getField args "vendorId") with
         | Except.error e => Except.error e
         | Except.ok sid => finishCall (clientDelete env ("/vendor/" ++ sid)))

def connectVendors (env : ClientEnv) (args : JSValue) : ToolResult :=
  runTool "connecting vendors"
    (match validateRequiredArgs args ["vendorId", "connectToVendorId"] with
     | Except.error e => Except.error e
     | Except.ok _ =>
       if failsNonEmptyString (getField args "vendorId")
           || failsNonEmptyString (getField args "connectToVendorId") then
         Except.ok (errResult "Error: vendorId and connectToVendorId must be non-empty strings")
       else
         match sanitizeString (getField args "vendorId") with
         | Except.error e => Except.error e
         | Except.ok sa =>
           match sanitizeString (getField args "connectToVendorId") with
           | Except.error e => Except.error e
           | Except.ok sb =>
             finishCall (clientPut env ("/vendor/" ++ sa ++ "/connect/" ++ sb)
               (JSValue.obj JSFields.nil)))

def disconnectVendors (env : ClientEnv) (args : JSValue) : ToolResult :=
  runTool "disconnecting vendors"
    (match validateRequiredArgs args ["vendorId", "disconnectFromVendorId"] with
     | Except.error e => Except.error e
     | Except.ok _ =>
       if failsNonEmptyString (getField args "vendorId")
           || failsNonEmptyString (getField args "disconnectFromVendorId") then
         Except.ok (errResult "Error: vendorId and disconnectFromVendorId must be non-empty strings")
       else
         match sanitizeString (getField args "vendorId") with
         | Except.error e => Except.error e
         | Except.ok sa =>
           match sanitizeString (getField args "disconnectFromVendorId") with
           | Except.error e => Except.error e
           | Except.ok sb =>
             finishCall (clientDelete env ("/vendor/" ++ sa ++ "/connect/" ++ sb)))

def createInvestor (env : ClientEnv) (args : JSValue) : ToolResult :=
  runTool "creating investor"
    (match validateRequiredArgs args ["investorData"] with
     | Except.error e => Except.error e
     | Except.ok _ =>
       if failsTruthyObjectCheck (getField args "investorData") then
         Except.ok (errResult "Error: investorData must be an object")
       else
         match sanitizeObject (getField args "investorData") with
         | Except.error e => Except.error e
         | Except.ok sd => finishCall (clientPost env "/investor" sd))

def listInvestors (env : ClientEnv) (args : JSValue) : ToolResult :=
  runTool "listing investors"
    (finishList env "/investor"
      (if truthy (pageOf args) then [("page", jsToString (pageOf args))] else []))

def getInvestor (env : ClientEnv) (args : JSValue) : ToolResult :=
  runTool "retrieving investor"
    (match validateRequiredArgs args ["investorId"] with
     | Except.error e => Except.error e
     | Except.ok _ =>
       if failsNonEmptyString (getField args "investorId") then
         Except.ok (errResult "Error: investorId must be a non-empty string")
       else
         match sanitizeString (getField args "investorId") with
         | Except.error e => Except.error e
         | Except.ok sid => finishCall (clientGet env ("/investor/" ++ sid)))

def updateInvestor (env : ClientEnv) (args : JSValue) : ToolResult :=
  runTool "updating investor"
    (match validateRequiredArgs args ["investorId", "updates"] with
     | Except.error e => Except.error e
     | Except.ok _ =>
       if failsNonEmptyString (getField args "investorId") then
         Except.ok (errResult "Error: investorId must be a non-empty string")
       else if failsTruthyObjectCheck (getField args "updates") then
         Except.ok (errResult "Error: updates must be an object")
       else
         match sanitizeString (getField args "investorId") with
         | Except.error e => Except.error e
         | Except.ok sid =>
           match sanitizeObject (getField args "updates") with
           | Except.error e => Except.error e
           | Except.ok su => finishCall (clientPatch env ("/investor/" ++ sid) su))

def deleteInvestor (env : ClientEnv) (args : JSValue) : ToolResult :=
  runTool "deleting investor"
    (match validateRequiredArgs args ["investorId"] with
     | Except.error e => Except.error e
     | Except.ok _ =>
       if failsNonEmptyString (getField args "investorId") then
         Except.ok (errResult "Error: investorId must be a non-empty string")
       else
         match sanitizeString (getField args "investorId") with
         | Except.error e => Except.error e
         | Except.ok sid => finishCall (clientDelete env ("/investor/" ++ sid)))

def connectInvestors (env : ClientEnv) (args : JSValue) : ToolResult :=
  runTool "connecting investors"
    (match validateRequiredArgs args ["investorId", "connectToInvestorId"] with
     | Except.error e => Except.error e
     | Except.ok _ =>
       if failsNonEmptyString (getField args "investorId")
           || failsNonEmptyString (getField args "connectToInvestorId") then
         Except.ok (errResult "Error: investorId and connectToInvestorId must be non-empty strings")
       else
         match sanitizeString (getField args "investorId") with
         | Except.error e => Except.error e
         | Except.ok sa =>
           match sanitizeString (getField args "connectToInvestorId") with
           | Except.error e => Except.error e
           | Except.ok sb =>
             finishCall (clientPut env ("/investor/" ++ sa ++ "/connect/" ++ sb)
               (JSValue.obj JSFields.nil)))

def disconnectInvestors (env : ClientEnv) (args : JSValue) : ToolResult :=
  runTool "disconnecting investors"
    (match validateRequiredArgs args ["investorId", "disconnectFromInvestorId"] with
     | Except.error e => Except.error e
     | Except.ok _ =>
       if failsNonEmptyString (getField args "investorId")
           || failsNonEmptyString (getField args "disconnectFromInvestorId") then
         Except.ok (errResult "Error: investorId and disconnectFromInvestorId must be non-empty strings")
       else
         match sanitizeString (getField args "investorId") with
         | Except.error e => Except.error e
         | Except.ok sa =>
           match sanitizeString (getField args "disconnectFromInvestorId") with
           | Except.error e => Except.error e
           | Except.ok sb =>
             finishCall (clientDelete env ("/investor/" ++ sa ++ "/connect/" ++ sb)))

end toolHandlers

/-! ## Result-shape predicates and substring machinery -/

def listStartsWith : List Char → List Char → Bool
  | [], _ => true
  | _ :: _, [] => false
  | p :: ps, c :: cs => p == c && listStartsWith ps cs

def listContainsSub : List Char → List Char → Bool
  | pat, [] => listStartsWith pat []
  | pat, c :: t => listStartsWith pat (c :: t) || listContainsSub pat t

/-- `strContains s pat` holds when `pat` occurs as a contiguous substring of
`s` (the observable sense in which an error message "mentions" a phrase). -/
def strContains (s pat : String) : Bool := listContainsSub pat.data s.data

/-- The uniform result shape asserted by the spec: exactly one content
element, of type `text`; when `isError` is set, its text starts with `Error`
and carries a `: ` separating the attempted action / check from the
message. -/
def wellFormedB (r : ToolResult) : Bool :=
  match r.content with
  | [ci] => ci.type == "text"
      && (!r.isError
          || (listStartsWith "Error".data ci.text.data && listContainsSub ": ".data ci.text.data))
  | _ => false

theorem listContainsSub_append (pat s t : List Char) (h : listContainsSub pat t = true) :
    listContainsSub pat (s ++ t) = true := by
  induction s with
  | nil => simpa using h
  | cons c cs ih =>
    show (listStartsWith pat (c :: (cs ++ t)) || listContainsSub pat (cs ++ t)) = true
    rw [ih]
    simp

theorem catch_data (label e : String) :
    ("Error " ++ label ++ ": " ++ e).data
      = 'E' :: 'r' :: 'r' :: 'o' :: 'r' :: ' ' :: (label.data ++ (':' :: ' ' :: e.data)) := by
  simp

theorem startsError_concrete (rest : List Char) :
    listStartsWith "Error".data ('E' :: 'r' :: 'r' :: 'o' :: 'r' :: rest) = true := by
  simp [listStartsWith]

theorem containsColonSpace (pre mid post : List Char) :
    listContainsSub [':', ' '] (pre ++ (mid ++ (':' :: ' ' :: post))) = true := by
  apply listContainsSub_append
  apply listContainsSub_append
  simp [listContainsSub, listStartsWith]

/-- The catch clause of `runTool` always yields a well formed error result,
so a handler is well formed as soon as every result it returns without
throwing is. -/
theorem runTool_wfB (label : String) (body : Except String ToolResult)
    (h : ∀ r, body = Except.ok r → wellFormedB r = true) :
    wellFormedB (runTool label body) = true := by
  cases body with
  | ok r => exact h r rfl
  | error e =>
    show wellFormedB (errResult ("Error " ++ label ++ ": " ++ e)) = true
    simp only [wellFormedB, errResult]
    rw [catch_data label e]
    have h1 := startsError_concrete (' ' :: (label.data ++ (':' :: ' ' :: e.data)))
    have h2 := containsColonSpace ['E', 'r', 'r', 'o', 'r', ' '] label.data e.data
    simp only [List.cons_append, List.nil_append] at h2
    simp [h1, h2]

theorem wf_okResult (t : String) : wellFormedB (okResult t) = true := by
  simp [wellFormedB, okResult]

theorem finishCall_wf (x : Except String JSValue) (r : ToolResult)
    (h : finishCall x = Except.ok r) : wellFormedB r = true := by
  cases x with
  | ok data =>
    injection h with h2
    subst h2
    exact wf_okResult _
  | error e => injection h

theorem wfGetLoan (env : ClientEnv) (args : JSValue) :
    wellFormedB (toolHandlers.getLoan env args) = true := by
  rw [toolHandlers.getLoan]
  apply runTool_wfB
  intro r hr
  repeat' split at hr
  all_goals first
    | exact finishCall_wf _ _ hr
    | (injection hr with h; subst h; first | exact wf_okResult _ | decide)
    | injection hr

theorem wfListLoans (env : ClientEnv) (args : JSValue) :
    wellFormedB (toolHandlers.listLoans env args) = true := by
  rw [toolHandlers.listLoans]
  apply runTool_wfB
  intro r hr
  repeat' split at hr
  all_goals first
    | exact finishCall_wf _ _ hr
    | (injection hr with h; subst h; first | exact wf_okResult _ | decide)
    | injection hr

theorem wfUpdateLoan (env : ClientEnv) (args : JSValue) :
    wellFormedB (toolHandlers.updateLoan env args) = true := by
  rw [toolHandlers.updateLoan]
  apply runTool_wfB
  intro r hr
  repeat' split at hr
  all_goals first
    | exact finishCall_wf _ _ hr
    | (injection hr with h; subst h; first | exact wf_okResult _ | decide)
    | injection hr

theorem wfCreateLoan (env : ClientEnv) (args : JSValue) :
    wellFormedB (toolHandlers.createLoan env args) = true := by
  rw [toolHandlers.createLoan]
  apply runTool_wfB
  intro r hr
  repeat' split at hr
  all_goals first
    | exact finishCall_wf _ _ hr
    | (injection hr with h; subst h; first | exact wf_okResult _ | decide)
    | injection hr

theorem wfGetLoanLedger (env : ClientEnv) (args : JSValue) :
    wellFormedB (toolHandlers.getLoanLedger env args) = true := by
  rw [toolHandlers.getLoanLedger]
  apply runTool_wfB
  intro r hr
  repeat' split at hr
  all_goals first
    | exact finishCall_wf _ _ hr
    | (injection hr with h; subst h; first | exact wf_okResult _ | decide)
    | injection hr

theorem wfGetTask (env : ClientEnv) (args : JSValue) :
    wellFormedB (toolHandlers.getTask env args) = true := by
  rw [toolHandlers.getTask]
  apply runTool_wfB
  intro r hr
  repeat' split at hr
  all_goals first
    | exact finishCall_wf _ _ hr
    | (injection hr with h; subst h; first | exact wf_okResult _ | decide)
    | injection hr

theorem wfListTasks (env : ClientEnv) (args : JSValue) :
    wellFormedB (toolHandlers.listTasks env args) = true := by
  rw [toolHandlers.listTasks]
  apply runTool_wfB
  intro r hr
  repeat' split at hr
  all_goals first
    | exact finishCall_wf _ _ hr
    | (injection hr with h; subst h; first | exact wf_okResult _ | decide)
    | injection hr

theorem wfCreateTask (env : ClientEnv) (args : JSValue) :
    wellFormedB (toolHandlers.createTask env args) = true := by
  rw [toolHandlers.createTask]
  apply runTool_wfB
  intro r hr
  repeat' split at hr
  all_goals first
    | exact finishCall_wf _ _ hr
    | (injection hr with h; subst h; first | exact wf_okResult _ | decide)
    | injection hr

theorem wfUpdateTask (env : ClientEnv) (args : JSValue) :
    wellFormedB (toolHandlers.updateTask env args) = true := by
  rw [toolHandlers.updateTask]
  apply runTool_wfB
  intro r hr
  repeat' split at hr
  all_goals first
    | exact finishCall_wf _ _ hr
    | (injection hr with h; subst h; first | exact wf_okResult _ | decide)
    | injection hr

theorem wfDeleteTask (env : ClientEnv) (args : JSValue) :
    wellFormedB (toolHandlers.deleteTask env args) = true := by
  rw [toolHandlers.deleteTask]
  apply runTool_wfB
  intro r hr
  repeat' split at hr
  all_goals first
    | exact finishCall_wf _ _ hr
    | (injection hr with h; subst h; first | exact wf_okResult _ | decide)
    | injection hr

theorem wfCreateBorrower (env : ClientEnv) (args : JSValue) :
    wellFormedB (toolHandlers.createBorrower env args) = true := by
  rw [toolHandlers.createBorrower]
  apply runTool_wfB
  intro r hr
  repeat' split at hr
  all_goals first
    | exact finishCall_wf _ _ hr
    | (injection hr with h; subst h; first | exact wf_okResult _ | decide)
    | injection hr

theorem wfListBorrowers (env : ClientEnv) (args : JSValue) :
    wellFormedB (toolHandlers.listBorrowers env args) = true := by
  rw [toolHandlers.listBorrowers]
  apply runTool_wfB
  intro r hr
  repeat' split at hr
  all_goals first
    | exact finishCall_wf _ _ hr
    | (injection hr with h; subst h; first | exact wf_okResult _ | decide)
    | injection hr

theorem wfGetBorrower (env : ClientEnv) (args : JSValue) :
    wellFormedB (toolHandlers.getBorrower env args) = true := by
  rw [toolHandlers.getBorrower]
  apply runTool_wfB
  intro r hr
  repeat' split at hr
  all_goals first
    | exact finishCall_wf _ _ hr
    | (injection hr with h; subst h; first | exact wf_okResult _ | decide)
    | injection hr

theorem wfUpdateBorrower (env : ClientEnv) (args : JSValue) :
    wellFormedB (toolHandlers.updateBorrower env args) = true := by
  rw [toolHandlers.updateBorrower]
  apply runTool_wfB
  intro r hr
  repeat' split at hr
  all_goals first
    | exact finishCall_wf _ _ hr
    | (injection hr with h; subst h; first | exact wf_okResult _ | decide)
    | injection hr

theorem wfDeleteBorrower (env : ClientEnv) (args : JSValue) :
    wellFormedB (toolHandlers.deleteBorrower env args) = true := by
  rw [toolHandlers.deleteBorrower]
  apply runTool_wfB
  intro r hr
  repeat' split at hr
  all_goals first
    | exact finishCall_wf _ _ hr
    | (injection hr with h; subst h; first | exact wf_okResult _ | decide)
    | injection hr

theorem wfConnectBorrowers (env : ClientEnv) (args : JSValue) :
    wellFormedB (toolHandlers.connectBorrowers env args) = true := by
  rw [toolHandlers.connectBorrowers]
  apply runTool_wfB
  intro r hr
  repeat' split at hr
  all_goals first
    | exact finishCall_wf _ _ hr
    | (injection hr with h; subst h; first | exact wf_okResult _ | decide)
    | injection hr

theorem wfDisconnectBorrowers (env : ClientEnv) (args : JSValue) :
    wellFormedB (toolHandlers.disconnectBorrowers env args) = true := by
  rw [toolHandlers.disconnectBorrowers]
  apply runTool_wfB
  intro r hr
  repeat' split at hr
  all_goals first
    | exact finishCall_wf _ _ hr
    | (injection hr with h; subst h; first | exact wf_okResult _ | decide)
    | injection hr

theorem wfCreateVendor (env : ClientEnv) (args : JSValue) :
    wellFormedB (toolHandlers.createVendor env args) = true := by
  rw [toolHandlers.createVendor]
  apply runTool_wfB
  intro r hr
  repeat' split at hr
  all_goals first
    | exact finishCall_wf _ _ hr
    | (injection hr with h; subst h; first | exact wf_okResult _ | decide)
    | injection hr

theorem wfListVendors (env : ClientEnv) (args : JSValue) :
    wellFormedB (toolHandlers.listVendors env args) = true := by
  rw [toolHandlers.listVendors]
  apply runTool_wfB
  intro r hr
  repeat' split at hr
  all_goals first
    | exact finishCall_wf _ _ hr
    | (injection hr with h; subst h; first | exact wf_okResult _ | decide)
    | injection hr

theorem wfGetVendor (env : ClientEnv) (args : JSValue) :
    wellFormedB (toolHandlers.getVendor env args) = true := by
  rw [toolHandlers.getVendor]
  apply runTool_wfB
  intro r hr
  repeat' split at hr
  all_goals first
    | exact finishCall_wf _ _ hr
    | (injection hr with h; subst h; first | exact wf_okResult _ | decide)
    | injection hr

theorem wfUpdateVendor (env : ClientEnv) (args : JSValue) :
    wellFormedB (toolHandlers.updateVendor env args) = true := by
  rw [toolHandlers.updateVendor]
  apply runTool_wfB
  intro r hr
  repeat' split at hr
  all_goals first
    | exact finishCall_wf _ _ hr
    | (injection hr with h; subst h; first | exact wf_okResult _ | decide)
    | injection hr

theorem wfDeleteVendor (env : ClientEnv) (args : JSValue) :
    wellFormedB (toolHandlers.deleteVendor env args) = true := by
  rw [toolHandlers.deleteVendor]
  apply runTool_wfB
  intro r hr
  repeat' split at hr
  all_goals first
    | exact finishCall_wf _ _ hr
    | (injection hr with h; subst h; first | exact wf_okResult _ | decide)
    | injection hr

theorem wfConnectVendors (env : ClientEnv) (args : JSValue) :
    wellFormedB (toolHandlers.connectVendors env args) = true := by
  rw [toolHandlers.connectVendors]
  apply runTool_wfB
  intro r hr
  repeat' split at hr
  all_goals first
    | exact finishCall_wf _ _ hr
    | (injection hr with h; subst h; first | exact wf_okResult _ | decide)
    | injection hr

theorem wfDisconnectVendors (env : ClientEnv) (args : JSValue) :
    wellFormedB (toolHandlers.disconnectVendors env args) = true := by
  rw [toolHandlers.disconnectVendors]
  apply runTool_wfB
  intro r hr
  repeat' split at hr
  all_goals first
    | exact finishCall_wf _ _ hr
    | (injection hr with h; subst h; first | exact wf_okResult _ | decide)
    | injection hr

theorem wfCreateInvestor (env : ClientEnv) (args : JSValue) :
    wellFormedB (toolHandlers.createInvestor env args) = true := by
  rw [toolHandlers.createInvestor]
  apply runTool_wfB
  intro r hr
  repeat' split at hr
  all_goals first
    | exact finishCall_wf _ _ hr
    | (injection hr with h; subst h; first | exact wf_okResult _ | decide)
    | injection hr

theorem wfListInvestors (env : ClientEnv) (args : JSValue) :
    wellFormedB (toolHandlers.listInvestors env args) = true := by
  rw [toolHandlers.listInvestors]
  apply runTool_wfB
  intro r hr
  repeat' split at hr
  all_goals first
    | exact finishCall_wf _ _ hr
    | (injection hr with h; subst h; first | exact wf_okResult _ | decide)
    | injection hr

theorem wfGetInvestor (env : ClientEnv) (args : JSValue) :
    wellFormedB (toolHandlers.getInvestor env args) = true := by
  rw [toolHandlers.getInvestor]
  apply runTool_wfB
  intro r hr
  repeat' split at hr
  all_goals first
    | exact finishCall_wf _ _ hr
    | (injection hr with h; subst h; first | exact wf_okResult _ | decide)
    | injection hr

theorem wfUpdateInvestor (env : ClientEnv) (args : JSValue) :
    wellFormedB (toolHandlers.updateInvestor env args) = true := by
  rw [toolHandlers.updateInvestor]
  apply runTool_wfB
  intro r hr
  repeat' split at hr
  all_goals first
    | exact finishCall_wf _ _ hr
    | (injection hr with h; subst h; first | exact wf_okResult _ | decide)
    | injection hr

theorem wfDeleteInvestor (env : ClientEnv) (args : JSValue) :
    wellFormedB (toolHandlers.deleteInvestor env args) = true := by
  rw [toolHandlers.deleteInvestor]
  apply runTool_wfB
  intro r hr
  repeat' split at hr
  all_goals first
    | exact finishCall_wf _ _ hr
    | (injection hr with h; subst h; first | exact wf_okResult _ | decide)
    | injection hr

theorem wfConnectInvestors (env : ClientEnv) (args : JSValue) :
    wellFormedB (toolHandlers.connectInvestors env args) = true := by
  rw [toolHandlers.connectInvestors]
  apply runTool_wfB
  intro r hr
  repeat' split at hr
  all_goals first
    | exact finishCall_wf _ _ hr
    | (injection hr with h; subst h; first | exact wf_okResult _ | decide)
    | injection hr

theorem wfDisconnectInvestors (env : ClientEnv) (args : JSValue) :
    wellFormedB (toolHandlers.disconnectInvestors env args) = true := by
  rw [toolHandlers.disconnectInvestors]
  apply runTool_wfB
  intro r hr
  repeat' split at hr
  all_goals first
    | exact finishCall_wf _ _ hr
    | (injection hr with h; subst h; first | exact wf_okResult _ | decide)
    | injection hr

/-! ## Concrete runtime fixtures used by witnesses and counterexamples -/

/-- A runtime whose network always answers 200 with an empty body (the client
then yields `{}`); used where only the pre-network behaviour matters. -/
def stubEnv : ClientEnv :=
  { BASELINE_API_KEY := "k"
    BASELINE_API_URL := ""
    jsonParse := fun s => Except.ok (JSValue.str s)
    fetch := fun _ _ _ _ => { ok := true, status := 200, statusText := "OK", body := "" } }

/-- A runtime whose network reflects the requested URL back as the response
body (and whose parser wraps text as a JSON string), so a handler's success
text exhibits exactly the upstream path it requested. -/
def echoPathEnv : ClientEnv :=
  { BASELINE_API_KEY := "k"
    BASELINE_API_URL := ""
    jsonParse := fun s => Except.ok (JSValue.str s)
    fetch := fun _ url _ _ => { ok := true, status := 200, statusText := "OK", body := url } }

def lookupHeader : List (String × String) → String → String
  | [], _ => ""
  | (k2, v) :: rest, k => if k2 == k then v else lookupHeader rest k

/-- The AWS-Secrets-Manager-style credential of the spec example. -/
def credJson : String := "\x7b\"apiKey\":\"abc\"\x7d"

/-- A runtime configured with `credJson`, whose parser maps that exact text to
the object the real `JSON.parse` would produce, and whose network reflects the
`Authorization` header back as the response body. -/
def echoAuthEnv : ClientEnv :=
  { BASELINE_API_KEY := credJson
    BASELINE_API_URL := ""
    jsonParse := fun s =>
      if s == credJson then
        Except.ok (JSValue.obj (JSFields.cons "apiKey" (JSValue.str "abc") JSFields.nil))
      else Except.ok (JSValue.str s)
    fetch := fun _ _ headers _ =>
      { ok := true, status := 200, statusText := "OK", body := lookupHeader headers "Authorization" } }

/-- A runtime whose network always answers HTTP 404 with body `not found`. -/
def notFoundEnv : ClientEnv :=
  { BASELINE_API_KEY := "k"
    BASELINE_API_URL := ""
    jsonParse := fun s => Except.ok (JSValue.str s)
    fetch := fun _ _ _ _ =>
      { ok := false, status := 404, statusText := "Not Found", body := "not found" } }

/-- Upstream body `{loans: [{Id: "1"}]}` (a one-element `loans` array). -/
def loansArrBody : JSValue :=
  JSValue.obj (JSFields.cons "loans"
    (JSValue.arr (JSList.cons
      (JSValue.obj (JSFields.cons "Id" (JSValue.str "1") JSFields.nil)) JSList.nil))
    JSFields.nil)

/-- A runtime whose upstream GET answers with `loansArrBody`. -/
def loansArrEnv : ClientEnv :=
  { BASELINE_API_KEY := "k"
    BASELINE_API_URL := ""
    jsonParse := fun _ => Except.ok loansArrBody
    fetch := fun _ _ _ _ => { ok := true, status := 200, statusText := "OK", body := "RAW" } }

/-- Upstream body `{loans: null}`: it has a `loans` field, whose value is
falsy. -/
def loansNullBody : JSValue :=
  JSValue.obj (JSFields.cons "loans" JSValue.null JSFields.nil)

/-- A runtime whose upstream GET answers with `loansNullBody`. -/
def loansNullEnv : ClientEnv :=
  { BASELINE_API_KEY := "k"
    BASELINE_API_URL := ""
    jsonParse := fun _ => Except.ok loansNullBody
    fetch := fun _ _ _ _ => { ok := true, status := 200, statusText := "OK", body := "RAW" } }

theorem failsNES_one : failsNonEmptyString (JSValue.str "1") = false := by decide

theorem failsNES_b : failsNonEmptyString (JSValue.str "b") = false := by decide

/-- C3 (confirmed): for every tool handler and every argument bag, the handler
never throws — it is a total function into `ToolResult` because its whole body
sits inside the try/catch embedded by `runTool` — and every result (failure or
success) carries exactly one `text` content element; failures have
`isError = true` with a message of the shape `Error <doing X>: <message>`
(it starts with `Error` and carries a `: ` separator), successes have
`isError = false`. `wellFormedB` states exactly this envelope. -/
theorem spec_c3_uniform_result_envelope :
    ∀ (env : ClientEnv) (args : JSValue),
      wellFormedB (toolHandlers.getLoan env args) = true
      ∧ wellFormedB (toolHandlers.listLoans env args) = true
      ∧ wellFormedB (toolHandlers.updateLoan env args) = true
      ∧ wellFormedB (toolHandlers.createLoan env args) = true
      ∧ wellFormedB (toolHandlers.getLoanLedger env args) = true
      ∧ wellFormedB (toolHandlers.getTask env args) = true
      ∧ wellFormedB (toolHandlers.listTasks env args) = true
      ∧ wellFormedB (toolHandlers.createTask env args) = true
      ∧ wellFormedB (toolHandlers.updateTask env args) = true
      ∧ wellFormedB (toolHandlers.deleteTask env args) = true
      ∧ wellFormedB (toolHandlers.createBorrower env args) = true
      ∧ wellFormedB (toolHandlers.listBorrowers env args) = true
      ∧ wellFormedB (toolHandlers.getBorrower env args) = true
      ∧ wellFormedB (toolHandlers.updateBorrower env args) = true
      ∧ wellFormedB (toolHandlers.deleteBorrower env args) = true
      ∧ wellFormedB (toolHandlers.connectBorrowers env args) = true
      ∧ wellFormedB (toolHandlers.disconnectBorrowers env args) = true
      ∧ wellFormedB (toolHandlers.createVendor env args) = true
      ∧ wellFormedB (toolHandlers.listVendors env args) = true
      ∧ wellFormedB (toolHandlers.getVendor env args) = true
      ∧ wellFormedB (toolHandlers.updateVendor env args) = true
      ∧ wellFormedB (toolHandlers.deleteVendor env args) = true
      ∧ wellFormedB (toolHandlers.connectVendors env args) = true
      ∧ wellFormedB (toolHandlers.disconnectVendors env args) = true
      ∧ wellFormedB (toolHandlers.createInvestor env args) = true
      ∧ wellFormedB (toolHandlers.listInvestors env args) = true
      ∧ wellFormedB (toolHandlers.getInvestor env args) = true
      ∧ wellFormedB (toolHandlers.updateInvestor env args) = true
      ∧ wellFormedB (toolHandlers.deleteInvestor env args) = true
      ∧ wellFormedB (toolHandlers.connectInvestors env args) = true
      ∧ wellFormedB (toolHandlers.disconnectInvestors env args) = true := by
  intro env args
  exact ⟨wfGetLoan env args, wfListLoans env args, wfUpdateLoan env args, wfCreateLoan env args, wfGetLoanLedger env args, wfGetTask env args, wfListTasks env args, wfCreateTask env args, wfUpdateTask env args, wfDeleteTask env args, wfCreateBorrower env args, wfListBorrowers env args, wfGetBorrower env args, wfUpdateBorrower env args, wfDeleteBorrower env args, wfConnectBorrowers env args, wfDisconnectBorrowers env args, wfCreateVendor env args, wfListVendors env args, wfGetVendor env args, wfUpdateVendor env args, wfDeleteVendor env args, wfConnectVendors env args, wfDisconnectVendors env args, wfCreateInvestor env args, wfListInvestors env args, wfGetInvestor env args, wfUpdateInvestor env args, wfDeleteInvestor env args, wfConnectInvestors env args, wfDisconnectInvestors env args⟩

/-- The conjunction asserted by claim C5, parameterized by the runtime and
the (whitespace-only) identifier string: each identifier-requiring handler,
invoked with that identifier and otherwise well-formed arguments, answers the
fixed `non-empty string` error result; and each of those messages indeed
mentions `non-empty string`. -/
def C5Prop (env : ClientEnv) (s : String) : Prop :=
  toolHandlers.getLoan env (JSValue.obj (JSFields.cons "loanId" (JSValue.str s) JSFields.nil))
      = errResult "Error: loanId must be a non-empty string"
  ∧ toolHandlers.updateLoan env (JSValue.obj (JSFields.cons "loanId" (JSValue.str s) (JSFields.cons "updates" (JSValue.obj JSFields.nil) JSFields.nil)))
      = errResult "Error: loanId must be a non-empty string"
  ∧ toolHandlers.getLoanLedger env (JSValue.obj (JSFields.cons "loanId" (JSValue.str s) JSFields.nil))
      = errResult "Error: loanId must be a non-empty string"
  ∧ toolHandlers.getTask env (JSValue.obj (JSFields.cons "taskId" (JSValue.str s) JSFields.nil))
      = errResult "Error: taskId must be a non-empty string"
  ∧ toolHandlers.updateTask env (JSValue.obj (JSFields.cons "taskId" (JSValue.str s) (JSFields.cons "updates" (JSValue.obj JSFields.nil) JSFields.nil)))
      = errResult "Error: taskId must be a non-empty string"
  ∧ toolHandlers.deleteTask env (JSValue.obj (JSFields.cons "taskId" (JSValue.str s) JSFields.nil))
      = errResult "Error: taskId must be a non-empty string"
  ∧ toolHandlers.getBorrower env (JSValue.obj (JSFields.cons "borrowerId" (JSValue.str s) JSFields.nil))
      = errResult "Error: borrowerId must be a non-empty string"
  ∧ toolHandlers.updateBorrower env (JSValue.obj (JSFields.cons "borrowerId" (JSValue.str s) (JSFields.cons "updates" (JSValue.obj JSFields.nil) JSFields.nil)))
      = errResult "Error: borrowerId must be a non-empty string"
  ∧ toolHandlers.deleteBorrower env (JSValue.obj (JSFields.cons "borrowerId" (JSValue.str s) JSFields.nil))
      = errResult "Error: borrowerId must be a non-empty string"
  ∧ toolHandlers.connectBorrowers env (JSValue.obj (JSFields.cons "borrowerId" (JSValue.str s) (JSFields.cons "connectToBorrowerId" (JSValue.str "b") JSFields.nil)))
      = errResult "Error: borrowerId and connectToBorrowerId must be non-empty strings"
  ∧ toolHandlers.connectBorrowers env (JSValue.obj (JSFields.cons "borrowerId" (JSValue.str "b") (JSFields.cons "connectToBorrowerId" (JSValue.str s) JSFields.nil)))
      = errResult "Error: borrowerId and connectToBorrowerId must be non-empty strings"
  ∧ toolHandlers.disconnectBorrowers env (JSValue.obj (JSFields.cons "borrowerId" (JSValue.str s) (JSFields.cons "disconnectFromBorrowerId" (JSValue.str "b") JSFields.nil)))
      = errResult "Error: borrowerId and disconnectFromBorrowerId must be non-empty strings"
  ∧ toolHandlers.disconnectBorrowers env (JSValue.obj (JSFields.cons "borrowerId" (JSValue.str "b") (JSFields.cons "disconnectFromBorrowerId" (JSValue.str s) JSFields.nil)))
      = errResult "Error: borrowerId and disconnectFromBorrowerId must be non-empty strings"
  ∧ toolHandlers.getVendor env (JSValue.obj (JSFields.cons "vendorId" (JSValue.str s) JSFields.nil))
      = errResult "Error: vendorId must be a non-empty string"
  ∧ toolHandlers.updateVendor env (JSValue.obj (JSFields.cons "vendorId" (JSValue.str s) (JSFields.cons "updates" (JSValue.obj JSFields.nil) JSFields.nil)))
      = errResult "Error: vendorId must be a non-empty string"
  ∧ toolHandlers.deleteVendor env (JSValue.obj (JSFields.cons "vendorId" (JSValue.str s) JSFields.nil))
      = errResult "Error: vendorId must be a non-empty string"
  ∧ toolHandlers.connectVendors env (JSValue.obj (JSFields.cons "vendorId" (JSValue.str s) (JSFields.cons "connectToVendorId" (JSValue.str "b") JSFields.nil)))
      = errResult "Error: vendorId and connectToVendorId must be non-empty strings"
  ∧ toolHandlers.connectVendors env (JSValue.obj (JSFields.cons "vendorId" (JSValue.str "b") (JSFields.cons "connectToVendorId" (JSValue.str s) JSFields.nil)))
      = errResult "Error: vendorId and connectToVendorId must be non-empty strings"
  ∧ toolHandlers.disconnectVendors env (JSValue.obj (JSFields.cons "vendorId" (JSValue.str s) (JSFields.cons "disconnectFromVendorId" (JSValue.str "b") JSFields.nil)))
      = errResult "Error: vendorId and disconnectFromVendorId must be non-empty strings"
  ∧ toolHandlers.disconnectVendors env (JSValue.obj (JSFields.cons "vendorId" (JSValue.str "b") (JSFields.cons "disconnectFromVendorId" (JSValue.str s) JSFields.nil)))
      = errResult "Error: vendorId and disconnectFromVendorId must be non-empty strings"
  ∧ toolHandlers.getInvestor env (JSValue.obj (JSFields.cons "investorId" (JSValue.str s) JSFields.nil))
      = errResult "Error: investorId must be a non-empty string"
  ∧ toolHandlers.updateInvestor env (JSValue.obj (JSFields.cons "investorId" (JSValue.str s) (JSFields.cons "updates" (JSValue.obj JSFields.nil) JSFields.nil)))
      = errResult "Error: investorId must be a non-empty string"
  ∧ toolHandlers.deleteInvestor env (JSValue.obj (JSFields.cons "investorId" (JSValue.str s) JSFields.nil))
      = errResult "Error: investorId must be a non-empty string"
  ∧ toolHandlers.connectInvestors env (JSValue.obj (JSFields.cons "investorId" (JSValue.str s) (JSFields.cons "connectToInvestorId" (JSValue.str "b") JSFields.nil)))
      = errResult "Error: investorId and connectToInvestorId must be non-empty strings"
  ∧ toolHandlers.connectInvestors env (JSValue.obj (JSFields.cons "investorId" (JSValue.str "b") (JSFields.cons "connectToInvestorId" (JSValue.str s) JSFields.nil)))
      = errResult "Error: investorId and connectToInvestorId must be non-empty strings"
  ∧ toolHandlers.disconnectInvestors env (JSValue.obj (JSFields.cons "investorId" (JSValue.str s) (JSFields.cons "disconnectFromInvestorId" (JSValue.str "b") JSFields.nil)))
      = errResult "Error: investorId and disconnectFromInvestorId must be non-empty strings"
  ∧ toolHandlers.disconnectInvestors env (JSValue.obj (JSFields.cons "investorId" (JSValue.str "b") (JSFields.cons "disconnectFromInvestorId" (JSValue.str s) JSFields.nil)))
      = errResult "Error: investorId and disconnectFromInvestorId must be non-empty strings"
  ∧ strContains "Error: loanId must be a non-empty string" "non-empty string" = true
  ∧ strContains "Error: taskId must be a non-empty string" "non-empty string" = true
  ∧ strContains "Error: borrowerId must be a non-empty string" "non-empty string" = true
  ∧ strContains "Error: borrowerId and connectToBorrowerId must be non-empty strings" "non-empty string" = true
  ∧ strContains "Error: borrowerId and disconnectFromBorrowerId must be non-empty strings" "non-empty string" = true
  ∧ strContains "Error: vendorId must be a non-empty string" "non-empty string" = true
  ∧ strContains "Error: vendorId and connectToVendorId must be non-empty strings" "non-empty string" = true
  ∧ strContains "Error: vendorId and disconnectFromVendorId must be non-empty strings" "non-empty string" = true
  ∧ strContains "Error: investorId must be a non-empty string" "non-empty string" = true
  ∧ strContains "Error: investorId and connectToInvestorId must be non-empty strings" "non-empty string" = true
  ∧ strContains "Error: investorId and disconnectFromInvestorId must be non-empty strings" "non-empty string" = true

theorem failsNES_of (s : String) (h : jsTrim s = "") :
    failsNonEmptyString (JSValue.str s) = true := by
  simp [failsNonEmptyString, h]

/-- C5 (confirmed): invoking any identifier-requiring handler with an empty or
whitespace-only identifier (any `s` with `jsTrim s = ""`) yields
`isError = true` with a message containing `non-empty string`; this covers
`loanId`, `taskId`, `borrowerId`, `vendorId`, `investorId` and both connect /
disconnect counterpart identifier positions. -/
theorem spec_c5_whitespace_identifier_rejected :
    ∀ (env : ClientEnv) (s : String), jsTrim s = "" → C5Prop env s := by
  intro env s h
  unfold C5Prop
  refine ⟨?_, ?_, ?_, ?_, ?_, ?_, ?_, ?_, ?_, ?_, ?_, ?_, ?_, ?_, ?_, ?_, ?_, ?_, ?_, ?_, ?_, ?_, ?_, ?_, ?_, ?_, ?_, ?_, ?_, ?_, ?_, ?_, ?_, ?_, ?_, ?_, ?_, ?_⟩
  all_goals first
    | (simp [toolHandlers.connectBorrowers, toolHandlers.connectInvestors, toolHandlers.connectVendors, toolHandlers.deleteBorrower, toolHandlers.deleteInvestor, toolHandlers.deleteTask, toolHandlers.deleteVendor, toolHandlers.disconnectBorrowers, toolHandlers.disconnectInvestors, toolHandlers.disconnectVendors, toolHandlers.getBorrower, toolHandlers.getInvestor, toolHandlers.getLoan, toolHandlers.getLoanLedger, toolHandlers.getTask, toolHandlers.getVendor, toolHandlers.updateBorrower, toolHandlers.updateInvestor, toolHandlers.updateLoan, toolHandlers.updateTask, toolHandlers.updateVendor,
        runTool, validateRequiredArgs, truthy, getField, fieldLookup, isUndefOrNull,
        failsNES_of s h, failsNES_b])
    | decide

/-- Witness for C5 at the empty string and at a one-space string, in the
fixed stub runtime. -/
theorem spec_c5_witness :
    (jsTrim "" = "" ∧ C5Prop stubEnv "") ∧ (jsTrim " " = "" ∧ C5Prop stubEnv " ") :=
  ⟨⟨by decide, spec_c5_whitespace_identifier_rejected stubEnv "" (by decide)⟩,
   ⟨by decide, spec_c5_whitespace_identifier_rejected stubEnv " " (by decide)⟩⟩

/-- The object-field rejection asserted by claim C1, parameterized by the
runtime and the non-object value bound to the required object field
(`updates` / `loanData` / `borrowerData` / `vendorData` / `investorData`):
each handler answers the fixed `must be an object` error result. -/
def C1ObjProp (env : ClientEnv) (v : JSValue) : Prop :=
  toolHandlers.updateLoan env (JSValue.obj (JSFields.cons "loanId" (JSValue.str "1") (JSFields.cons "updates" v JSFields.nil)))
      = errResult "Error: updates must be an object"
  ∧ toolHandlers.createLoan env (JSValue.obj (JSFields.cons "loanData" v JSFields.nil))
      = errResult "Error: loanData must be an object"
  ∧ toolHandlers.updateTask env (JSValue.obj (JSFields.cons "taskId" (JSValue.str "1") (JSFields.cons "updates" v JSFields.nil)))
      = errResult "Error: updates must be an object"
  ∧ toolHandlers.createBorrower env (JSValue.obj (JSFields.cons "borrowerData" v JSFields.nil))
      = errResult "Error: borrowerData must be an object"
  ∧ toolHandlers.updateBorrower env (JSValue.obj (JSFields.cons "borrowerId" (JSValue.str "1") (JSFields.cons "updates" v JSFields.nil)))
      = errResult "Error: updates must be an object"
  ∧ toolHandlers.createVendor env (JSValue.obj (JSFields.cons "vendorData" v JSFields.nil))
      = errResult "Error: vendorData must be an object"
  ∧ toolHandlers.updateVendor env (JSValue.obj (JSFields.cons "vendorId" (JSValue.str "1") (JSFields.cons "updates" v JSFields.nil)))
      = errResult "Error: updates must be an object"
  ∧ toolHandlers.createInvestor env (JSValue.obj (JSFields.cons "investorData" v JSFields.nil))
      = errResult "Error: investorData must be an object"
  ∧ toolHandlers.updateInvestor env (JSValue.obj (JSFields.cons "investorId" (JSValue.str "1") (JSFields.cons "updates" v JSFields.nil)))
      = errResult "Error: updates must be an object"

/-- The `null` branch of claim C1: binding the required object field to `null`
trips `validateRequiredArgs` first (it treats `null` like a missing argument),
so the error result is the catch-normalized `Missing required argument`
message — which does not mention `must be an object`. -/
def C1NullProp (env : ClientEnv) : Prop :=
  toolHandlers.updateLoan env (JSValue.obj (JSFields.cons "loanId" (JSValue.str "1") (JSFields.cons "updates" JSValue.null JSFields.nil)))
      = errResult "Error updating loan: Missing required argument: updates"
  ∧ toolHandlers.createLoan env (JSValue.obj (JSFields.cons "loanData" JSValue.null JSFields.nil))
      = errResult "Error creating loan: Missing required argument: loanData"
  ∧ toolHandlers.updateTask env (JSValue.obj (JSFields.cons "taskId" (JSValue.str "1") (JSFields.cons "updates" JSValue.null JSFields.nil)))
      = errResult "Error updating task: Missing required argument: updates"
  ∧ toolHandlers.createBorrower env (JSValue.obj (JSFields.cons "borrowerData" JSValue.null JSFields.nil))
      = errResult "Error creating borrower: Missing required argument: borrowerData"
  ∧ toolHandlers.updateBorrower env (JSValue.obj (JSFields.cons "borrowerId" (JSValue.str "1") (JSFields.cons "updates" JSValue.null JSFields.nil)))
      = errResult "Error updating borrower: Missing required argument: updates"
  ∧ toolHandlers.createVendor env (JSValue.obj (JSFields.cons "vendorData" JSValue.null JSFields.nil))
      = errResult "Error creating vendor: Missing required argument: vendorData"
  ∧ toolHandlers.updateVendor env (JSValue.obj (JSFields.cons "vendorId" (JSValue.str "1") (JSFields.cons "updates" JSValue.null JSFields.nil)))
      = errResult "Error updating vendor: Missing required argument: updates"
  ∧ toolHandlers.createInvestor env (JSValue.obj (JSFields.cons "investorData" JSValue.null JSFields.nil))
      = errResult "Error creating investor: Missing required argument: investorData"
  ∧ toolHandlers.updateInvestor env (JSValue.obj (JSFields.cons "investorId" (JSValue.str "1") (JSFields.cons "updates" JSValue.null JSFields.nil)))
      = errResult "Error updating investor: Missing required argument: updates"

/-- C1 counterexample: `updateLoan` with `updates: null` answers
`Error updating loan: Missing required argument: updates` — an error result
whose text does not mention `must be an object`, refuting the claim for the
`null` case (strings and numbers do yield `must be an object`, see the
amended theorem). -/
theorem spec_c1_counterexample :
    toolHandlers.updateLoan stubEnv (JSValue.obj (JSFields.cons "loanId" (JSValue.str "1") (JSFields.cons "updates" JSValue.null JSFields.nil)))
      = errResult "Error updating loan: Missing required argument: updates"
    ∧ (toolHandlers.updateLoan stubEnv (JSValue.obj (JSFields.cons "loanId" (JSValue.str "1") (JSFields.cons "updates" JSValue.null JSFields.nil)))).isError = true
    ∧ strContains (firstText (toolHandlers.updateLoan stubEnv (JSValue.obj (JSFields.cons "loanId" (JSValue.str "1") (JSFields.cons "updates" JSValue.null JSFields.nil)))))
        "must be an object" = false := by
  refine ⟨by decide, by decide, by decide⟩

/-- C1 (amended): for every handler requiring an object field, binding that
field to any string or any number yields `isError = true` mentioning
`must be an object`; binding it to `null` also yields `isError = true`, but
with the `Missing required argument: <field>` message of the required-argument
check (which fires first and treats `null` as absent), not the
`must be an object` message. -/
theorem spec_c1_object_field_rejected :
    (∀ (env : ClientEnv) (s : String), C1ObjProp env (JSValue.str s))
    ∧ (∀ (env : ClientEnv) (n : Int), C1ObjProp env (JSValue.num n))
    ∧ (∀ env : ClientEnv, C1NullProp env)
    ∧ strContains "Error: updates must be an object" "must be an object" = true
    ∧ strContains "Error: loanData must be an object" "must be an object" = true
    ∧ strContains "Error: borrowerData must be an object" "must be an object" = true
    ∧ strContains "Error: vendorData must be an object" "must be an object" = true
    ∧ strContains "Error: investorData must be an object" "must be an object" = true
    ∧ strContains "Error updating loan: Missing required argument: updates"
        "must be an object" = false := by
  refine ⟨?_, ?_, ?_, by decide, by decide, by decide, by decide, by decide, by decide⟩
  · intro env s
    unfold C1ObjProp
    refine ⟨?_, ?_, ?_, ?_, ?_, ?_, ?_, ?_, ?_⟩
    all_goals
      simp [toolHandlers.createBorrower, toolHandlers.createInvestor, toolHandlers.createLoan, toolHandlers.createVendor, toolHandlers.updateBorrower, toolHandlers.updateInvestor, toolHandlers.updateLoan, toolHandlers.updateTask, toolHandlers.updateVendor,
        runTool, validateRequiredArgs, truthy, getField, fieldLookup, isUndefOrNull,
        failsNES_one, failsTypeofObjectCheck, failsTruthyObjectCheck, jsTypeof, isNullV]
  · intro env n
    unfold C1ObjProp
    refine ⟨?_, ?_, ?_, ?_, ?_, ?_, ?_, ?_, ?_⟩
    all_goals
      simp [toolHandlers.createBorrower, toolHandlers.createInvestor, toolHandlers.createLoan, toolHandlers.createVendor, toolHandlers.updateBorrower, toolHandlers.updateInvestor, toolHandlers.updateLoan, toolHandlers.updateTask, toolHandlers.updateVendor,
        runTool, validateRequiredArgs, truthy, getField, fieldLookup, isUndefOrNull,
        failsNES_one, failsTypeofObjectCheck, failsTruthyObjectCheck, jsTypeof, isNullV]
  · intro env
    unfold C1NullProp
    refine ⟨?_, ?_, ?_, ?_, ?_, ?_, ?_, ?_, ?_⟩
    all_goals
      simp [toolHandlers.createBorrower, toolHandlers.createInvestor, toolHandlers.createLoan, toolHandlers.createVendor, toolHandlers.updateBorrower, toolHandlers.updateInvestor, toolHandlers.updateLoan, toolHandlers.updateTask, toolHandlers.updateVendor,
        runTool, validateRequiredArgs, truthy, getField, fieldLookup, isUndefOrNull]

/-- Shorthand for the argument bag `{page: v}`. -/
def pageArgs (v : JSValue) : JSValue :=
  JSValue.obj (JSFields.cons "page" v JSFields.nil)

/-- C2 counterexample: `listBorrowers` invoked with `page: -1` — an invalid
(negative) page — does not error; it issues its upstream GET against
`/borrower?page=-1`, i.e. the page is appended although invalid. The
`echoPathEnv` network reflects the requested URL into the response body, so
the success text exhibits the requested path. This refutes the claim that all
four list tools append `page` only when it is a valid non-negative number:
only `listTasks` validates. -/
theorem spec_c2_counterexample :
    toolHandlers.listBorrowers echoPathEnv (pageArgs (JSValue.num (-1)))
      = okResult "\"/borrower?page=-1\""
    ∧ (toolHandlers.listBorrowers echoPathEnv (pageArgs (JSValue.num (-1)))).isError = false
    ∧ ((-1 : Int) < 0) := by
  refine ⟨by decide, by decide, by decide⟩

/-- C2 (amended): `listTasks` alone validates `page` — a provided truthy page
that is not a non-negative number yields the `non-negative number` error
(shown for every negative number and every nonempty string), and a valid page
is appended (`listTasks({page:2})` GETs `/task?page=2`). The other three list
tools (`listBorrowers`, `listVendors`, `listInvestors`) append any provided
truthy page without validation — with `page: -1` they GET
`/borrower?page=-1`, `/vendor?page=-1`, `/investor?page=-1` respectively. -/
theorem spec_c2_page_append_behavior :
    (∀ (env : ClientEnv) (n : Int), n < 0 →
      toolHandlers.listTasks env (pageArgs (JSValue.num n))
        = errResult "Error: page must be a non-negative number")
    ∧ (∀ (env : ClientEnv) (s : String), s ≠ "" →
      toolHandlers.listTasks env (pageArgs (JSValue.str s))
        = errResult "Error: page must be a non-negative number")
    ∧ strContains "Error: page must be a non-negative number" "non-negative number" = true
    ∧ toolHandlers.listTasks echoPathEnv (pageArgs (JSValue.num 2)) = okResult "\"/task?page=2\""
    ∧ toolHandlers.listBorrowers echoPathEnv (pageArgs (JSValue.num (-1)))
        = okResult "\"/borrower?page=-1\""
    ∧ toolHandlers.listVendors echoPathEnv (pageArgs (JSValue.num (-1)))
        = okResult "\"/vendor?page=-1\""
    ∧ toolHandlers.listInvestors echoPathEnv (pageArgs (JSValue.num (-1)))
        = okResult "\"/investor?page=-1\"" := by
  refine ⟨?_, ?_, by decide, by decide, by decide, by decide, by decide⟩
  · intro env n h
    have h0 : (n != 0) = true := by
      simp only [bne_iff_ne, ne_eq]
      omega
    have h1 : pageInvalid (JSValue.num n) = true := by
      simp only [pageInvalid, decide_eq_true_eq]
      exact h
    simp [toolHandlers.listTasks, runTool, pageArgs, pageOf, getField, fieldLookup, truthy, h0, h1]
  · intro env s h
    have h0 : (s != "") = true := by
      simp only [bne_iff_ne, ne_eq]
      exact h
    simp [toolHandlers.listTasks, runTool, pageArgs, pageOf, getField, fieldLookup, truthy,
      pageInvalid, h0]

/-- Witness for C2 at `page: -1` and at the string page `"x"` in the stub
runtime. -/
theorem spec_c2_witness :
    ((-1 : Int) < 0
      ∧ toolHandlers.listTasks stubEnv (pageArgs (JSValue.num (-1)))
          = errResult "Error: page must be a non-negative number")
    ∧ ("x" ≠ ""
      ∧ toolHandlers.listTasks stubEnv (pageArgs (JSValue.str "x"))
          = errResult "Error: page must be a non-negative number") :=
  ⟨⟨by decide, spec_c2_page_append_behavior.1 stubEnv (-1) (by decide)⟩,
   ⟨by decide, spec_c2_page_append_behavior.2.1 stubEnv "x" (by decide)⟩⟩

/-- C4 (confirmed): credential resolution. If the configured credential string
fails to parse as JSON, or parses to anything that is not a truthy
(non-null) object, the raw string is used; if it parses to a non-null object
the token is extracted by the fixed-priority key lookup
(`BASELINE_API_KEY`, `apiKey`, `key`, `value`, `secret`, else the first
string-valued field) — shown both in general and at the spec instance: with
configured credential `{"apiKey":"abc"}` the outbound `Authorization` header
is `Token abc` (reflected back by `echoAuthEnv`), not `Token <raw JSON>`. -/
theorem spec_c4_credential_resolution :
    (∀ (jp : String → Except String JSValue) (raw e : String),
      jp raw = Except.error e → resolveApiKey jp raw = raw)
    ∧ (∀ (jp : String → Except String JSValue) (raw : String) (v : JSValue),
      jp raw = Except.ok v → (truthy v && (jsTypeof v == "object")) = false →
      resolveApiKey jp raw = raw)
    ∧ (∀ (jp : String → Except String JSValue) (raw : String) (v : JSValue),
      jp raw = Except.ok v → (truthy v && (jsTypeof v == "object")) = true →
      resolveApiKey jp raw = resolveApiKeyFromParsed v raw)
    ∧ (∀ (fs : JSFields) (raw a : String),
      fieldLookup fs "BASELINE_API_KEY" = JSValue.undefined →
      fieldLookup fs "apiKey" = JSValue.str a → a ≠ "" →
      resolveApiKeyFromParsed (JSValue.obj fs) raw = a)
    ∧ makeRequest echoAuthEnv "GET" "/x" none = Except.ok (JSValue.str "Token abc")
    ∧ "Token abc" ≠ "Token " ++ credJson := by
  refine ⟨?_, ?_, ?_, ?_, by rfl, by decide⟩
  · intro jp raw e h
    simp [resolveApiKey, h]
  · intro jp raw v h h2
    simp [resolveApiKey, h, h2]
  · intro jp raw v h h2
    simp [resolveApiKey, h, h2]
  · intro fs raw a h1 h2 ha
    have h0 : (a != "") = true := by
      simp only [bne_iff_ne, ne_eq]
      exact ha
    simp [resolveApiKeyFromParsed, getField, h1, h2, truthy, jsToString, h0]

/-- Witness for C4: a non-JSON credential resolves to itself; a credential
parsing to a bare string resolves to itself; a credential parsing to
`{apiKey: "abc"}` resolves to `abc`. -/
theorem spec_c4_witness :
    resolveApiKey (fun _ => Except.error "bad") "rawkey" = "rawkey"
    ∧ resolveApiKey (fun _ => Except.ok (JSValue.str "zzz")) "rawkey" = "rawkey"
    ∧ resolveApiKey
        (fun _ => Except.ok (JSValue.obj (JSFields.cons "apiKey" (JSValue.str "abc") JSFields.nil)))
        "rawkey" = "abc" :=
  ⟨spec_c4_credential_resolution.1 (fun _ => Except.error "bad") "rawkey" "bad" rfl,
   spec_c4_credential_resolution.2.1 (fun _ => Except.ok (JSValue.str "zzz")) "rawkey"
     (JSValue.str "zzz") rfl (by decide),
   (spec_c4_credential_resolution.2.2.1
      (fun _ => Except.ok (JSValue.obj (JSFields.cons "apiKey" (JSValue.str "abc") JSFields.nil)))
      "rawkey" (JSValue.obj (JSFields.cons "apiKey" (JSValue.str "abc") JSFields.nil))
      rfl (by decide)).trans (by decide)⟩

/-- C6 counterexample: `sanitizeString("<script>x</script>")` yields
`scriptx/script`, not the `scriptxscript` asserted by the claim — the forward
slash of the closing tag is not among the stripped characters
`< > \" ' &`. -/
theorem spec_c6_counterexample :
    sanitizeString (JSValue.str "<script>x</script>") = Except.ok "scriptx/script"
    ∧ "scriptx/script" ≠ "scriptxscript" := by
  refine ⟨by rfl, by decide⟩

/-- C6 (amended): `sanitizeString` fails with `Input must be a string` on
every non-string input; on a string it trims, then removes every occurrence
of `<`, `>`, double quote, single quote and `&`, then truncates to at most
1000 characters. In particular `sanitizeString("<script>x</script>")` equals
`scriptx/script` (the `/` is not in the stripped set, so it survives). -/
theorem spec_c6_sanitize_text :
    (∀ s : String, sanitizeString (JSValue.str s) = Except.ok (sanitizeStr s))
    ∧ (∀ s : String, sanitizeStr s
        = List.asString (((jsTrim s).data.filter
            (fun c => !(c == '<' || c == '>' || c == Char.ofNat 34
              || c == Char.ofNat 39 || c == '&'))).take 1000))
    ∧ (∀ n : Int, sanitizeString (JSValue.num n) = Except.error "Input must be a string")
    ∧ (∀ b : Bool, sanitizeString (JSValue.bool b) = Except.error "Input must be a string")
    ∧ sanitizeString JSValue.null = Except.error "Input must be a string"
    ∧ sanitizeString JSValue.undefined = Except.error "Input must be a string"
    ∧ (∀ fs : JSFields, sanitizeString (JSValue.obj fs) = Except.error "Input must be a string")
    ∧ (∀ xs : JSList, sanitizeString (JSValue.arr xs) = Except.error "Input must be a string")
    ∧ (∀ s : String, (sanitizeStr s).length ≤ 1000)
    ∧ sanitizeString (JSValue.str "<script>x</script>") = Except.ok "scriptx/script" := by
  refine ⟨fun s => rfl, fun s => rfl, fun n => rfl, fun b => rfl, rfl, rfl,
    fun fs => rfl, fun xs => rfl, ?_, by rfl⟩
  intro s
  show (List.asString (((jsTrim s).data.filter (fun c => !dangerousChar c)).take 1000)).length
      ≤ 1000
  have h1 : ∀ l : List Char, (List.asString l).length = l.length := fun l => rfl
  rw [h1]
  simp [List.length_take]

/-- The key sequence of an object shape. -/
def fieldsKeys : JSFields → List String
  | JSFields.nil => []
  | JSFields.cons k _ rest => k :: fieldsKeys rest

theorem sanitizeFields_keys : ∀ fs : JSFields, fieldsKeys (sanitizeFields fs) = fieldsKeys fs
  | JSFields.nil => rfl
  | JSFields.cons k _ rest => by
    show k :: fieldsKeys (sanitizeFields rest) = k :: fieldsKeys rest
    rw [sanitizeFields_keys rest]

theorem sanitizeList_length : ∀ xs : JSList, jsListLength (sanitizeList xs) = jsListLength xs
  | JSList.nil => rfl
  | JSList.cons _ rest => by
    show jsListLength (sanitizeList rest) + 1 = jsListLength rest + 1
    rw [sanitizeList_length rest]

/-- The spec example input `{a: "<b>", n: [{c: "'x'"}]}` (the inner string is
a quoted x between single-quote characters). -/
def sanitizeExample : JSValue :=
  JSValue.obj (JSFields.cons "a" (JSValue.str "<b>")
    (JSFields.cons "n" (JSValue.arr (JSList.cons
      (JSValue.obj (JSFields.cons "c"
        (JSValue.str (String.mk [Char.ofNat 39, 'x', Char.ofNat 39])) JSFields.nil))
      JSList.nil))
    JSFields.nil))

/-- C7 (confirmed): `sanitizeObject` fails with `Input must be an object` on
every input that is not a non-null object (strings, numbers, booleans,
`null`, `undefined`); on objects and arrays it returns a value of identical
shape — `sanitizeStr` applied to every string leaf, arrays mapped
element-wise in order, object keys preserved in order, and non-string
non-container leaves returned unchanged. The spec example sanitizes each
string leaf in place. -/
theorem spec_c7_sanitize_structure :
    (∀ s : String, sanitizeObject (JSValue.str s) = Except.error "Input must be an object")
    ∧ (∀ n : Int, sanitizeObject (JSValue.num n) = Except.error "Input must be an object")
    ∧ (∀ b : Bool, sanitizeObject (JSValue.bool b) = Except.error "Input must be an object")
    ∧ sanitizeObject JSValue.null = Except.error "Input must be an object"
    ∧ sanitizeObject JSValue.undefined = Except.error "Input must be an object"
    ∧ (∀ fs : JSFields, sanitizeObject (JSValue.obj fs) = Except.ok (JSValue.obj (sanitizeFields fs)))
    ∧ (∀ xs : JSList, sanitizeObject (JSValue.arr xs) = Except.ok (JSValue.arr (sanitizeList xs)))
    ∧ (∀ s : String, sanitizeValue (JSValue.str s) = JSValue.str (sanitizeStr s))
    ∧ (∀ n : Int, sanitizeValue (JSValue.num n) = JSValue.num n)
    ∧ (∀ b : Bool, sanitizeValue (JSValue.bool b) = JSValue.bool b)
    ∧ sanitizeValue JSValue.null = JSValue.null
    ∧ sanitizeValue JSValue.undefined = JSValue.undefined
    ∧ (∀ (k : String) (v : JSValue) (rest : JSFields),
        sanitizeFields (JSFields.cons k v rest)
          = JSFields.cons k (sanitizeValue v) (sanitizeFields rest))
    ∧ (∀ (v : JSValue) (rest : JSList),
        sanitizeList (JSList.cons v rest)
          = JSList.cons (sanitizeValue v) (sanitizeList rest))
    ∧ (∀ fs : JSFields, fieldsKeys (sanitizeFields fs) = fieldsKeys fs)
    ∧ (∀ xs : JSList, jsListLength (sanitizeList xs) = jsListLength xs)
    ∧ sanitizeObject sanitizeExample
        = Except.ok (JSValue.obj (JSFields.cons "a" (JSValue.str "b")
            (JSFields.cons "n" (JSValue.arr (JSList.cons
              (JSValue.obj (JSFields.cons "c" (JSValue.str "x") JSFields.nil))
              JSList.nil))
            JSFields.nil))) :=
  ⟨fun _ => rfl, fun _ => rfl, fun _ => rfl, rfl, rfl, fun _ => rfl, fun _ => rfl,
   fun _ => rfl, fun _ => rfl, fun _ => rfl, rfl, rfl,
   fun _ _ _ => rfl, fun _ _ => rfl, sanitizeFields_keys, sanitizeList_length, by rfl⟩

/-- C8 (confirmed): whenever the upstream response has a non-ok status, the
client fails with `API request failed: <status> <statusText> - Body: <body>`
— the response body text is captured into the failure — and a handler
surfaces it as an `isError` result whose message carries the status code and
the body: with an HTTP 404 / `not found` upstream, `getLoan` answers a
message containing both `404` and `not found`. -/
theorem spec_c8_upstream_error_surfaced :
    (∀ (env : ClientEnv) (method path : String) (body : Option JSValue),
      env.BASELINE_API_KEY ≠ "" →
      (env.fetch method (env.BASELINE_API_URL ++ path) (requestHeaders env) (requestBody body)).ok
        = false →
      makeRequest env method path body
        = Except.error ("API request failed: "
            ++ toString (env.fetch method (env.BASELINE_API_URL ++ path) (requestHeaders env)
                (requestBody body)).status
            ++ " "
            ++ (env.fetch method (env.BASELINE_API_URL ++ path) (requestHeaders env)
                (requestBody body)).statusText
            ++ " - Body: "
            ++ (env.fetch method (env.BASELINE_API_URL ++ path) (requestHeaders env)
                (requestBody body)).body))
    ∧ toolHandlers.getLoan notFoundEnv
        (JSValue.obj (JSFields.cons "loanId" (JSValue.str "1") JSFields.nil))
        = errResult "Error retrieving loan: API request failed: 404 Not Found - Body: not found"
    ∧ strContains "Error retrieving loan: API request failed: 404 Not Found - Body: not found"
        "404" = true
    ∧ strContains "Error retrieving loan: API request failed: 404 Not Found - Body: not found"
        "not found" = true := by
  refine ⟨?_, by decide, by decide, by decide⟩
  intro env method path body hk hok
  have h1 : (env.BASELINE_API_KEY == "") = false := by
    simp only [beq_eq_false_iff_ne, ne_eq]
    exact hk
  simp [makeRequest, h1, hok]

/-- Witness for C8 in the fixed 404 runtime. -/
theorem spec_c8_witness :
    notFoundEnv.BASELINE_API_KEY ≠ ""
    ∧ (notFoundEnv.fetch "GET" (notFoundEnv.BASELINE_API_URL ++ "/x")
        (requestHeaders notFoundEnv) (requestBody none)).ok = false
    ∧ makeRequest notFoundEnv "GET" "/x" none
        = Except.error "API request failed: 404 Not Found - Body: not found" :=
  ⟨by decide, rfl,
   (spec_c8_upstream_error_surfaced.1 notFoundEnv "GET" "/x" none (by decide) rfl).trans
     (congrArg Except.error (by decide))⟩

theorem getFieldE_of (v : JSValue) (k : String) (h : isUndefOrNull v = false) :
    getFieldE v k = Except.ok (getField v k) := by
  cases v <;> simp_all [getFieldE, isUndefOrNull]

/-- C9 counterexample: with upstream body `{loans: null}` — a body that does
have a `loans` field — the code takes the whole body, not that field value,
as the list (`data.loans || data` falls through on the falsy field), and the
paired `totalCount` is `undefined` (absent from the serialized result). Under
the claim as stated the list should have been the field value `null`. -/
theorem spec_c9_counterexample :
    getField loansNullBody "loans" = JSValue.null
    ∧ listLoansResult loansNullBody
        = JSValue.obj (JSFields.cons "loans" loansNullBody
            (JSFields.cons "totalCount" JSValue.undefined JSFields.nil))
    ∧ isNullV loansNullBody = false
    ∧ toolHandlers.listLoans loansNullEnv (JSValue.obj JSFields.nil)
        = okResult "\x7b\"loans\":\x7b\"loans\":null\x7d\x7d" := by
  refine ⟨rfl, rfl, rfl, by decide⟩

/-- C9 (amended): `listLoans` takes the `loans` field of the upstream body as
the list only when that field is truthy; otherwise (field absent or falsy,
e.g. `null`) the whole body is taken. The result object pairs the chosen list
with `totalCount := list.length` — a number equal to the array length
whenever the list is an array, and `undefined` (dropped from the serialized
JSON) when the list has no length. -/
theorem spec_c9_list_loans_postprocessing :
    (∀ data : JSValue, truthy (getField data "loans") = true →
      listLoansResult data
        = JSValue.obj (JSFields.cons "loans" (getField data "loans")
            (JSFields.cons "totalCount" (jsLength (getField data "loans")) JSFields.nil)))
    ∧ (∀ data : JSValue, truthy (getField data "loans") = false →
      listLoansResult data
        = JSValue.obj (JSFields.cons "loans" data
            (JSFields.cons "totalCount" (jsLength data) JSFields.nil)))
    ∧ (∀ (data : JSValue) (xs : JSList), getField data "loans" = JSValue.arr xs →
      listLoansResult data
        = JSValue.obj (JSFields.cons "loans" (JSValue.arr xs)
            (JSFields.cons "totalCount" (JSValue.num (Int.ofNat (jsListLength xs)))
              JSFields.nil)))
    ∧ (∀ (env : ClientEnv) (a data : JSValue),
      clientGet env "/loan" = Except.ok data → isUndefOrNull data = false →
      toolHandlers.listLoans env a = okResult (jsonStringify (listLoansResult data))) := by
  refine ⟨?_, ?_, ?_, ?_⟩
  · intro data h
    simp [listLoansResult, h]
  · intro data h
    simp [listLoansResult, h]
  · intro data xs h
    simp [listLoansResult, h, truthy, jsLength]
  · intro env a data h hd
    simp [toolHandlers.listLoans, runTool, h, getFieldE_of data "loans" hd]

/-- Witness for C9: with upstream body `{loans: [{Id: "1"}]}` the `loans`
array is taken as the list and `totalCount` equals its length `1`. -/
theorem spec_c9_witness :
    getField loansArrBody "loans" = (JSValue.arr (JSList.cons (JSValue.obj (JSFields.cons "Id" (JSValue.str "1") JSFields.nil)) JSList.nil))
    ∧ listLoansResult loansArrBody
        = JSValue.obj (JSFields.cons "loans" (JSValue.arr (JSList.cons (JSValue.obj (JSFields.cons "Id" (JSValue.str "1") JSFields.nil)) JSList.nil))
            (JSFields.cons "totalCount" (JSValue.num 1) JSFields.nil))
    ∧ clientGet loansArrEnv "/loan" = Except.ok loansArrBody
    ∧ isUndefOrNull loansArrBody = false
    ∧ toolHandlers.listLoans loansArrEnv (JSValue.obj JSFields.nil)
        = okResult (jsonStringify (listLoansResult loansArrBody))
    ∧ jsonStringify (listLoansResult loansArrBody)
        = "\x7b\"loans\":[\x7b\"Id\":\"1\"\x7d],\"totalCount\":1\x7d" :=
  ⟨rfl,
   spec_c9_list_loans_postprocessing.2.2.1 loansArrBody
     (JSList.cons (JSValue.obj (JSFields.cons "Id" (JSValue.str "1") JSFields.nil)) JSList.nil)
     rfl,
   rfl, rfl,
   spec_c9_list_loans_postprocessing.2.2.2 loansArrEnv (JSValue.obj JSFields.nil) loansArrBody
     rfl rfl,
   by rfl⟩

/-- C10 (confirmed): `setBaselineApiKey` updates the stored credential only
when called with a non-empty string: `undefined` (`none`) and the empty
string leave every prior credential unchanged, a non-empty string replaces
it, and once the credential is non-empty no call can make it empty again —
the setter can replace but never clear. -/
theorem spec_c10_set_api_key :
    (∀ cur : String, setBaselineApiKey none cur = cur)
    ∧ (∀ cur : String, setBaselineApiKey (some "") cur = cur)
    ∧ (∀ cur k : String, k ≠ "" → setBaselineApiKey (some k) cur = k)
    ∧ (∀ (cur : String) (key : Option String), cur ≠ "" → setBaselineApiKey key cur ≠ "") := by
  refine ⟨fun cur => rfl, fun cur => by simp [setBaselineApiKey], ?_, ?_⟩
  · intro cur k h
    simp [setBaselineApiKey, h]
  · intro cur key h
    cases key with
    | none => exact h
    | some k =>
      show (if k != "" then k else cur) ≠ ""
      split
      · next hk =>
        intro he
        rw [he] at hk
        simp at hk
      · exact h

/-- Witness for C10: replacing works, clearing does not. -/
theorem spec_c10_witness :
    ("new" ≠ "" ∧ setBaselineApiKey (some "new") "old" = "new")
    ∧ ("old" ≠ "" ∧ setBaselineApiKey (some "") "old" ≠ ""
        ∧ setBaselineApiKey none "old" ≠ "") :=
  ⟨⟨by decide, spec_c10_set_api_key.2.2.1 "old" "new" (by decide)⟩,
   ⟨by decide, spec_c10_set_api_key.2.2.2 "old" (some "") (by decide),
    spec_c10_set_api_key.2.2.2 "old" none (by decide)⟩⟩

end Baseline
